import Mathlib

set_option maxRecDepth 10000

/-!
Verification development for the KMC dashboard metrics engine
(src/kmc_dashboard.py).  The Python calculators are shallowly embedded:

* Firestore documents become Lean structures; a field read with
  `doc.get(key)` is an `Option`, a field read with `doc.get(key, default)`
  is modelled by applying `Option.getD default` at the call site, exactly
  where the source applies the default.
* Python timestamps are modelled as UNIX instants in whole seconds
  (`Int`); the source also accepts calendar strings (`pd.to_datetime`),
  which are outside this model — every record here carries a numeric or
  absent timestamp.  `datetime.date()` is modelled as the epoch day
  `Int.fdiv t 86400` (the source uses the process-local timezone; the
  claims under verification do not depend on the zone offset).
* Float arithmetic (`/ 3600`, `/ 60`, percentages) is modelled exactly
  over `ℚ`; every concrete input used in a theorem below keeps the float
  computation exact or far from any rounding boundary.
* `datetime.now()` is modelled as an explicitly passed current instant,
  as §6 of the design requires for tests.
-/

/-- A Python value that a verification field may hold: missing, a boolean,
or a free-text string (the dashboard's observation entries mix all
three). -/
inductive PyVal where
  | pnone : PyVal
  | pbool : Bool → PyVal
  | pstr : String → PyVal
  deriving DecidableEq, Repr

/-- One entry of a baby's `observationDay` array, with the fields the
embedded calculators read. -/
structure ObsDay where
  ageDay : Option Int
  totalKMCtimeDay : Int
  filledCorrectly : PyVal
  kmcfilledcorrectly : PyVal
  mnecomment : String
  unstableForKMC : Option Bool
  dangerSign : String
  deriving DecidableEq, Repr

/-- One entry of a baby's `followUp` array (only `followUpNumber` is read
by the embedded calculators). -/
structure FollowUpEntry where
  followUpNumber : Option Int
  deriving DecidableEq, Repr

/-- A baby-population record (merged `baby` / `babyBackUp` document), with
the fields the embedded calculators read.  A missing `UID` is modelled as
`""`: the source only ever tests `UID` for truthiness and equality, for
which `None` and `""` behave alike. -/
structure Baby where
  UID : String
  source : String
  hospitalName : Option String
  currentLocationOfTheBaby : Option String
  placeOfDelivery : Option String
  dateOfBirth : Option Int
  registrationDate : Option Int
  regDataTypeRegistrationDate : Option Int
  deadBaby : Option Bool
  lastDischargeType : Option String
  dischargeDate : Option Int
  lastDischargeDate : Option Int
  actualDischargeDate : Option Int
  dischargedStatusString : String
  babyInProgram : Bool
  discharged : Bool
  observationDay : List ObsDay
  followUp : List FollowUpEntry
  deriving DecidableEq, Repr

/-- A record of the `discharges` collection, with the fields the embedded
calculators read.  String fields read with a `''` default are plain
strings here. -/
structure DischargeRecord where
  UID : String
  hospitalName : Option String
  dischargeStatus : String
  dischargeType : String
  criticalReasons : String
  deriving DecidableEq, Repr

/-- A record with every optional field absent, used to build concrete
inputs. -/
def emptyBaby : Baby :=
  { UID := "", source := "", hospitalName := none,
    currentLocationOfTheBaby := none, placeOfDelivery := none,
    dateOfBirth := none, registrationDate := none,
    regDataTypeRegistrationDate := none, deadBaby := none,
    lastDischargeType := none, dischargeDate := none,
    lastDischargeDate := none, actualDischargeDate := none,
    dischargedStatusString := "", babyInProgram := false,
    discharged := false, observationDay := [], followUp := [] }

/-! ### String helpers (Python `str` operations used by the source) -/

/-- Lowercasing of one character; `str.lower` restricted to ASCII.  Every
cased letter in the source's rule constants is ASCII, so this matches the
Python behaviour on all strings the rules compare. -/
def pyLowerChar (c : Char) : Char :=
  if 'A' ≤ c ∧ c ≤ 'Z' then Char.ofNat (c.toNat + 32) else c

/-- Python `str.lower` (ASCII letters; other characters unchanged). -/
def pyLower (s : String) : String :=
  String.mk (s.data.map pyLowerChar)

/-- Whitespace stripped by Python `str.strip` (the ASCII whitespace the
dashboard's data can carry). -/
def isSpaceChar (c : Char) : Bool :=
  c == ' ' || c == '\t' || c == '\n' || c == '\r'

/-- Python `str.strip`: remove leading and trailing whitespace. -/
def pyStrip (s : String) : String :=
  String.mk (((s.data.dropWhile isSpaceChar).reverse.dropWhile
    isSpaceChar).reverse)

/-- Whether `needle` occurs at the head of `hay`. -/
def leadsL : List Char → List Char → Bool
  | [], _ => true
  | _ :: _, [] => false
  | a :: as, b :: bs => a == b && leadsL as bs

/-- Whether `needle` occurs contiguously inside `hay`: Python's
`needle in hay` on strings. -/
def containsLC : List Char → List Char → Bool
  | [], needle => needle.isEmpty
  | hay@(_ :: t), needle => leadsL needle hay || containsLC t needle

/-- Python substring test `needle in hay`. -/
def containsS (hay needle : String) : Bool :=
  containsLC hay.data needle.data

/-! ### Time Normalizer (`convert_unix_to_datetime`, source lines 123-134) -/

/-- Embedding of `convert_unix_to_datetime` on numeric-or-absent input:
a falsy value (`None` or `0`) gives `None`; a value above
`1_000_000_000_000` is milliseconds and is divided by 1000; otherwise the
value is seconds.  Calendar-string input (the `pd.to_datetime` branch) is
outside the model. -/
def convert_unix_to_datetime : Option Int → Option Int
  | none => none
  | some t =>
      if t = 0 then none
      else if t > 1000000000000 then some (t / 1000) else some t

/-- Epoch day of an instant: models `datetime.date()` (see the header
note on timezones). -/
def dateOfInstant (t : Int) : Int := Int.fdiv t 86400

/-- Python `a or b` on two optional numeric timestamp fields: the first
operand wins unless it is falsy (`None` or `0`). -/
def pyOrI : Option Int → Option Int → Option Int
  | some v, b => if v = 0 then b else some v
  | none, b => b

/-! ### Registration timeliness (`calculate_registration_timeliness`,
source lines 260-289) -/

/-- The report returned by `calculate_registration_timeliness`. -/
structure RegReport where
  total_inborn : Nat
  within_24h_count : Nat
  within_24h_percentage : ℚ
  within_12h_count : Nat
  within_12h_percentage : ℚ
  deriving DecidableEq, Repr

/-- The inborn test `baby.get('placeOfDelivery') in ['यह अस्पताल', 'this
hospital']` (also used with a `''` default at other call sites; absent and
`''` both fail the membership test, so one predicate serves both). -/
def isInbornPlace (b : Baby) : Bool :=
  b.placeOfDelivery == some "यह अस्पताल" ||
    b.placeOfDelivery == some "this hospital"

/-- Birth and registration instants of a record, when both convert:
`registrationDate or registrationDataType.registrationDate`, each through
the time normalizer. -/
def regTimes (b : Baby) : Option (Int × Int) :=
  match convert_unix_to_datetime b.dateOfBirth,
        convert_unix_to_datetime
          (pyOrI b.registrationDate b.regDataTypeRegistrationDate) with
  | some bt, some rt => some (bt, rt)
  | _, _ => none

/-- Hours between birth and registration, when both instants convert:
`(reg_time - birth_time).total_seconds() / 3600`. -/
def regLagHours (b : Baby) : Option ℚ :=
  (regTimes b).map (fun p => ((p.2 - p.1 : Int) : ℚ) / 3600)

/-- Seconds between birth and registration (the numerator of the
source's hour computation). -/
def regLagSeconds (b : Baby) : Option Int :=
  (regTimes b).map (fun p => p.2 - p.1)

/-- The `0 <= time_diff <= 24` test of the source's counting loop, taken
on the exact seconds lag: `0 ≤ s/3600 ≤ 24` holds iff `0 ≤ s ≤ 86400`
(`regWithin24_iff_hours` below bridges to the hour form the source
writes). -/
def regWithin24 (b : Baby) : Bool :=
  match regLagSeconds b with
  | some s => decide (0 ≤ s) && decide (s ≤ 86400)
  | none => false

/-- The nested `time_diff <= 12` test (only reached inside the 24h
branch): `s/3600 ≤ 12` iff `s ≤ 43200`. -/
def regWithin12 (b : Baby) : Bool :=
  regWithin24 b &&
    (match regLagSeconds b with
     | some s => decide (s ≤ 43200)
     | none => false)

/-- The integer-seconds test is the source's `0 <= time_diff <= 24` test
on the exact hour lag. -/
theorem regWithin24_iff_hours (b : Baby) :
    regWithin24 b = true ↔
      ∃ d, regLagHours b = some d ∧ 0 ≤ d ∧ d ≤ 24 := by
  unfold regWithin24 regLagHours regLagSeconds
  cases h : regTimes b with
  | none => simp
  | some p =>
      simp only [Option.map_some', Option.some.injEq, Bool.and_eq_true,
        decide_eq_true_eq]
      have h3600 : (0:ℚ) < 3600 := by norm_num
      constructor
      · rintro ⟨h0, h1⟩
        refine ⟨_, rfl, ?_, ?_⟩
        · exact div_nonneg (by exact_mod_cast h0) (le_of_lt h3600)
        · rw [div_le_iff₀ h3600]
          have : ((p.2 - p.1 : Int) : ℚ) ≤ 86400 := by exact_mod_cast h1
          linarith
      · rintro ⟨d, hd, h0, h1⟩
        rw [← hd] at h0 h1
        have h0' := (le_div_iff₀ h3600).mp h0
        have h1' := (div_le_iff₀ h3600).mp h1
        have hA : (0:ℚ) ≤ ((p.2 - p.1 : Int) : ℚ) := by linarith
        have hB : ((p.2 - p.1 : Int) : ℚ) ≤ 86400 := by linarith
        exact ⟨by exact_mod_cast hA, by exact_mod_cast hB⟩

/-- Embedding of `calculate_registration_timeliness`: filter the inborn
records, count lags within 24 and 12 hours, and attach zero-guarded
percentages.  Note that the source keeps no per-UID dedup set in this
function: every list element contributes. -/
def calculate_registration_timeliness (baby_data : List Baby) : RegReport :=
  let inborn := baby_data.filter isInbornPlace
  let total := inborn.length
  let w24 := (inborn.filter regWithin24).length
  let w12 := (inborn.filter regWithin12).length
  { total_inborn := total
    within_24h_count := w24
    within_24h_percentage :=
      if total > 0 then (w24 : ℚ) / (total : ℚ) * 100 else 0
    within_12h_count := w12
    within_12h_percentage :=
      if total > 0 then (w12 : ℚ) / (total : ℚ) * 100 else 0 }

/-! ### Death rates (`calculate_death_rates`, source lines 1408-1548) -/

/-- The scalar summary fields of `calculate_death_rates` that the claims
address (`total_babies`, `dead_babies`, `mortality_rate`); the per-
hospital, per-location and discharge sub-reports are built from the same
deduplicated loop and are not needed here. -/
structure DeathReport where
  total_babies : Nat
  dead_babies : Nat
  mortality_rate : ℚ
  deriving DecidableEq, Repr

/-- The `processed_uids` loop pattern shared by the dashboard's
calculators: keep the first record of each non-empty `UID`, in list
order. -/
def dedupByUID : List Baby → List String → List Baby
  | [], _ => []
  | b :: rest, seen =>
      if b.UID = "" || seen.contains b.UID then dedupByUID rest seen
      else b :: dedupByUID rest (b.UID :: seen)

/-- Embedding of the summary fields of `calculate_death_rates`:
`total_babies` is the length of the UID-deduplicated population
(`len(processed_uids)`), while `dead_babies` is computed by the source
over the raw, un-deduplicated `baby_data` list (line 1511:
`sum(1 for baby in baby_data if baby.get('deadBaby') == True)`).  The
`discharge_data` argument feeds only the per-category sub-report and is
unused by these fields. -/
def calculate_death_rates (baby_data : List Baby)
    (_discharge_data : List DischargeRecord) : DeathReport :=
  let total := (dedupByUID baby_data []).length
  let dead := (baby_data.filter (fun b => b.deadBaby == some true)).length
  { total_babies := total
    dead_babies := dead
    mortality_rate :=
      if total > 0 then (dead : ℚ) / (total : ℚ) * 100 else 0 }

/-! ### Concrete input for claim C1 -/

/-- A duplicated record: an inborn, dead baby with UID `B1`, born at
instant 86400 and registered one hour later, appearing once per
provenance collection. -/
def c1Baby : Baby :=
  { emptyBaby with
    UID := "B1", source := "baby",
    hospitalName := some "District Hospital",
    placeOfDelivery := some "this hospital",
    dateOfBirth := some 86400,
    registrationDate := some 90000,
    deadBaby := some true }

/-- The same record tagged with the backup provenance. -/
def c1BabyBackup : Baby := { c1Baby with source := "babyBackUp" }

/-- Claim C1: the spec says a repeated UID contributes at most once to
every metrics computation, naming the registration-timeliness counts and
the mortality numerator `dead_babies`.  The code has no dedup in
`calculate_registration_timeliness` and computes `dead_babies` over the
raw list, so one baby present in both provenance collections is counted
twice in `total_inborn`, `within_24h_count`, `within_12h_count` and
`dead_babies`, while `total_babies` deduplicates — giving a mortality
rate of 200%. -/
theorem C1_repeated_uid_counted_twice :
    (calculate_registration_timeliness [c1Baby, c1BabyBackup]).total_inborn
        = 2 ∧
    (calculate_registration_timeliness
        [c1Baby, c1BabyBackup]).within_24h_count = 2 ∧
    (calculate_registration_timeliness
        [c1Baby, c1BabyBackup]).within_12h_count = 2 ∧
    (calculate_death_rates [c1Baby, c1BabyBackup] []).total_babies = 1 ∧
    (calculate_death_rates [c1Baby, c1BabyBackup] []).dead_babies = 2 ∧
    (calculate_death_rates [c1Baby, c1BabyBackup] []).mortality_rate
        = 200 := by
  refine ⟨by decide, by decide, by decide, by decide, by decide, ?_⟩
  show ((2 : Nat) : ℚ) / ((1 : Nat) : ℚ) * 100 = 200
  norm_num

/-! ### KMC initiation metrics (`calculate_kmc_initiation_metrics`,
source lines 291-417) -/

/-- One element of `initiation_data`.  The source stores the lag as float
hours `(first_kmc_date - birth_date).total_seconds() / 3600`; the model
carries the exact numerator `time_to_initiation_seconds` next to the hour
value so that the `<= 24` / `<= 48` bucket tests can be decided over `Int`
(`initEntry_hours_eq` ties the two fields together). -/
structure InitEntry where
  UID : String
  hospital : String
  time_to_initiation_seconds : Int
  time_to_initiation_hours : ℚ
  first_kmc_hours : ℚ
  is_inborn : Bool
  current_location : String
  deriving DecidableEq, Repr

/-- The first-KMC scan of the source (lines 315-322): over the entries
with positive `totalKMCtimeDay`, keep the smallest
`birth_date + timedelta(days=obs_day.get('ageDay', 0))` — note the `0`
default when `ageDay` is absent — with its entry's
`totalKMCtimeDay / 60`; earlier entries win ties (strict `<`). -/
def firstKMCLoop (birth : Int) :
    List ObsDay → Option (Int × ℚ) → Option (Int × ℚ)
  | [], acc => acc
  | o :: rest, acc =>
      if o.totalKMCtimeDay > 0 then
        let kmcDate := birth + 86400 * o.ageDay.getD 0
        match acc with
        | none =>
            firstKMCLoop birth rest
              (some (kmcDate, (o.totalKMCtimeDay : ℚ) / 60))
        | some acc0 =>
            if kmcDate < acc0.1 then
              firstKMCLoop birth rest
                (some (kmcDate, (o.totalKMCtimeDay : ℚ) / 60))
            else firstKMCLoop birth rest (some acc0)
      else firstKMCLoop birth rest acc

/-- The per-record body of the `initiation_data` loop: skip records with
a falsy `UID` or an unconvertible `dateOfBirth`, then record the first
KMC session when one exists. -/
def initEntryOf (b : Baby) : Option InitEntry :=
  if b.UID = "" then none
  else
    match convert_unix_to_datetime b.dateOfBirth with
    | none => none
    | some birth =>
        match firstKMCLoop birth b.observationDay none with
        | none => none
        | some fk =>
            some { UID := b.UID
                   hospital := b.hospitalName.getD "Unknown"
                   time_to_initiation_seconds := fk.1 - birth
                   time_to_initiation_hours := ((fk.1 - birth : Int) : ℚ) / 3600
                   first_kmc_hours := fk.2
                   is_inborn := isInbornPlace b
                   current_location :=
                     b.currentLocationOfTheBaby.getD "Unknown" }

/-- The seconds field is the exact numerator of the hour field. -/
theorem initEntry_hours_eq (b : Baby) (e : InitEntry)
    (h : initEntryOf b = some e) :
    e.time_to_initiation_hours = (e.time_to_initiation_seconds : ℚ) / 3600 := by
  unfold initEntryOf at h
  split at h
  · exact absurd h (by simp)
  · split at h
    · exact absurd h (by simp)
    · split at h
      · exact absurd h (by simp)
      · simp only [Option.some.injEq] at h
        subst h
        rfl

/-- The `time_to_initiation_hours <= 24` bucket test, decided on the
exact seconds value (`s / 3600 ≤ 24` iff `s ≤ 86400`). -/
def initWithin24 (e : InitEntry) : Bool :=
  decide (e.time_to_initiation_seconds ≤ 86400)

/-- The `time_to_initiation_hours <= 48` bucket test, decided on the
exact seconds value. -/
def initWithin48 (e : InitEntry) : Bool :=
  decide (e.time_to_initiation_seconds ≤ 172800)

/-- The per-group block of the source (count, average, 24h/48h buckets
and percentages) computed for `inborn_data` / `outborn_data` / one
location's slice.  The source only builds it for a non-empty group, so
the divisions by `count` are safe. -/
structure GroupStats where
  count : Nat
  avg_time_hours : ℚ
  within_24h_count : Nat
  within_48h_count : Nat
  within_24h_percentage : ℚ
  within_48h_percentage : ℚ
  deriving DecidableEq, Repr

/-- Builds one `GroupStats` block exactly as the source does. -/
def groupStats (l : List InitEntry) : GroupStats :=
  let n := l.length
  let w24 := (l.filter initWithin24).length
  let w48 := (l.filter initWithin48).length
  { count := n
    avg_time_hours := (l.map (·.time_to_initiation_hours)).sum / (n : ℚ)
    within_24h_count := w24
    within_48h_count := w48
    within_24h_percentage := (w24 : ℚ) / (n : ℚ) * 100
    within_48h_percentage := (w48 : ℚ) / (n : ℚ) * 100 }

/-- First-occurrence deduplication of a list of strings, modelling
iteration over a Python `set` built from the list (the set's iteration
order is unspecified; the claims below do not depend on it). -/
def dedupStrings : List String → List String
  | [] => []
  | s :: rest =>
      if (dedupStrings rest).contains s then dedupStrings rest
      else s :: dedupStrings rest

/-- The report of `calculate_kmc_initiation_metrics`.  The empty dicts
the source returns for `inborn_stats` / `outborn_stats` when the group is
empty are modelled as `none`; `inborn_location_stats` is the location-keyed
dict as a key/value list. -/
structure InitReport where
  total_babies_with_kmc : Nat
  avg_time_to_initiation_hours : ℚ
  within_24h_count : Nat
  within_24h_percentage : ℚ
  within_48h_count : Nat
  within_48h_percentage : ℚ
  initiation_data : List InitEntry
  inborn_stats : Option GroupStats
  outborn_stats : Option GroupStats
  inborn_location_stats : List (String × GroupStats)
  deriving DecidableEq, Repr

/-- Embedding of `calculate_kmc_initiation_metrics`. -/
def calculate_kmc_initiation_metrics (baby_data : List Baby) : InitReport :=
  let idata := baby_data.filterMap initEntryOf
  if idata.isEmpty then
    { total_babies_with_kmc := 0, avg_time_to_initiation_hours := 0,
      within_24h_count := 0, within_24h_percentage := 0,
      within_48h_count := 0, within_48h_percentage := 0,
      initiation_data := [], inborn_stats := none, outborn_stats := none,
      inborn_location_stats := [] }
  else
    let total := idata.length
    let w24 := (idata.filter initWithin24).length
    let w48 := (idata.filter initWithin48).length
    let inborn := idata.filter (·.is_inborn)
    let outborn := idata.filter (fun e => !e.is_inborn)
    let locations := dedupStrings (inborn.map (·.current_location))
    { total_babies_with_kmc := total
      avg_time_to_initiation_hours :=
        (idata.map (·.time_to_initiation_hours)).sum / (total : ℚ)
      within_24h_count := w24
      within_24h_percentage := (w24 : ℚ) / (total : ℚ) * 100
      within_48h_count := w48
      within_48h_percentage := (w48 : ℚ) / (total : ℚ) * 100
      initiation_data := idata
      inborn_stats := if inborn.isEmpty then none else some (groupStats inborn)
      outborn_stats :=
        if outborn.isEmpty then none else some (groupStats outborn)
      inborn_location_stats :=
        locations.map (fun loc =>
          (loc, groupStats
            (inborn.filter (fun e => e.current_location == loc)))) }

/-! ### Average KMC by location (`calculate_average_kmc_by_location`,
source lines 419-475) -/

/-- One accumulator cell of `location_hospital_data`, keyed by
`f"{hospital}-{location}"`. -/
structure AvgAcc where
  hospital : String
  location : String
  total_kmc_minutes : Int
  observation_days : Nat
  baby_count : Nat
  deriving DecidableEq, Repr

/-- Whether an insertion-ordered key/value list has a key (Python
`key in dict`). -/
def assocHas {α : Type} (m : List (String × α)) (k : String) : Bool :=
  m.any (fun p => p.1 == k)

/-- In-place update of one key of an insertion-ordered key/value list
(Python `dict[key] = f(dict[key])`). -/
def assocUpd {α : Type} (m : List (String × α)) (k : String)
    (f : α → α) : List (String × α) :=
  m.map (fun p => if p.1 == k then (p.1, f p.2) else p)

/-- One result row of `calculate_average_kmc_by_location`. -/
structure AvgResult where
  hospital : String
  location : String
  avg_hours_per_day : ℚ
  avg_hours_per_baby : ℚ
  baby_count : Nat
  observation_days : Nat
  deriving DecidableEq, Repr

/-- The inner observation loop of the source (lines 443-454): entries
whose `ageDay` is `None` are skipped; otherwise the observation date is
`birth_date.date() + timedelta(days=ageDay)`, and an in-window entry with
positive minutes accumulates into the cell and sets the
`baby_has_kmc_in_period` flag. -/
def avgObsStep (k : String) (birthDay startDate endDate : Int)
    (st : List (String × AvgAcc) × Bool) (o : ObsDay) :
    List (String × AvgAcc) × Bool :=
  match o.ageDay with
  | none => st
  | some age =>
      let obsDate := birthDay + age
      if startDate ≤ obsDate ∧ obsDate ≤ endDate then
        if o.totalKMCtimeDay > 0 then
          (assocUpd st.1 k (fun a =>
            { a with
              total_kmc_minutes := a.total_kmc_minutes + o.totalKMCtimeDay
              observation_days := a.observation_days + 1 }), true)
        else st
      else st

/-- The per-baby body of the source's accumulation loop (lines 423-457):
skip records whose birth date does not convert, create the
`hospital-location` cell on first sight, run the observation loop, and
count the baby when it had in-window KMC. -/
def avgBabyStep (startDate endDate : Int)
    (m : List (String × AvgAcc)) (b : Baby) : List (String × AvgAcc) :=
  match convert_unix_to_datetime b.dateOfBirth with
  | none => m
  | some birth =>
      let hospital := b.hospitalName.getD "Unknown"
      let location := b.currentLocationOfTheBaby.getD "Unknown"
      let k := hospital ++ "-" ++ location
      let m1 := if assocHas m k then m
                else m ++ [(k, ⟨hospital, location, 0, 0, 0⟩)]
      let st := b.observationDay.foldl
        (avgObsStep k (dateOfInstant birth) startDate endDate) (m1, false)
      if st.2 then
        assocUpd st.1 k (fun a => { a with baby_count := a.baby_count + 1 })
      else st.1

/-- Embedding of `calculate_average_kmc_by_location`: the window
`[start_date, end_date]` is inclusive and given as epoch days. -/
def calculate_average_kmc_by_location (baby_data : List Baby)
    (startDate endDate : Int) : List AvgResult :=
  let m := baby_data.foldl (avgBabyStep startDate endDate) []
  (m.filter (fun p => p.2.observation_days != 0)).map (fun p =>
    { hospital := p.2.hospital
      location := p.2.location
      avg_hours_per_day :=
        (p.2.total_kmc_minutes : ℚ) / (p.2.observation_days : ℚ) / 60
      avg_hours_per_baby :=
        if p.2.baby_count > 0 then
          (p.2.total_kmc_minutes : ℚ) / (p.2.baby_count : ℚ) / 60
        else 0
      baby_count := p.2.baby_count
      observation_days := p.2.observation_days })

/-! ### Daily KMC analysis (`calculate_daily_kmc_analysis`, source lines
1550-1619) -/

/-- The grid test of the source's daily loop (lines 1580-1582):
`hospitalName` and `currentLocationOfTheBaby` must be members of the
hospital/location lists — which hold exactly the truthy names occurring in
`baby_data`, so for a record of that list the test is truthiness of its
own two fields — and `observationDay` must be non-empty. -/
def dailyGridOK (b : Baby) : Bool :=
  b.hospitalName.getD "" != "" &&
    b.currentLocationOfTheBaby.getD "" != "" &&
    !b.observationDay.isEmpty

/-- Whether the source's daily loop treats the record as discharged on
the target date (lines 1590-1596): a truthy `lastDischargeDate` that
converts to an instant whose calendar date equals the target date. -/
def dailyDischargedOn (b : Baby) (targetDate : Int) : Bool :=
  match convert_unix_to_datetime b.lastDischargeDate with
  | none => false
  | some dd => dateOfInstant dd == targetDate

/-- The observation scan of the daily loop (lines 1599-1610) for one
baby: entries with absent `ageDay` are skipped; an entry whose derived
calendar date equals the target date and whose minutes are positive adds
its minutes and one count. -/
def dailyBabyCell (birth : Int) (targetDate : Int)
    (obs : List ObsDay) : Int × Nat :=
  obs.foldl (fun acc o =>
    match o.ageDay with
    | none => acc
    | some age =>
        if dateOfInstant birth + age == targetDate ∧ o.totalKMCtimeDay > 0
        then (acc.1 + o.totalKMCtimeDay, acc.2 + 1)
        else acc) (0, 0)

/-- One cell of the daily analysis table. -/
structure DailyCell where
  total_kmc_minutes : Int
  baby_count : Nat
  average_kmc_hours : ℚ
  deriving DecidableEq, Repr

/-- Python `round(x, 1)` modelled over `ℚ` (round half up; the source
rounds a float, whose half-even behaviour differs only on exact
boundaries that no claim exercises). -/
def round1 (q : ℚ) : ℚ := ((⌊q * 10 + 1/2⌋ : Int) : ℚ) / 10

/-- Embedding of one `analysis_data[date_key][hospital][location]` cell
of `calculate_daily_kmc_analysis`: the nested date/hospital/location
dicts are modelled as a function of the target date and the cell
coordinates.  A record contributes exactly when it passes the grid test,
its birth date converts, it is not discharged on the target date, and its
name/location equal the cell coordinates. -/
def dailyStep (targetDate : Int) (hospital location : String)
    (acc : Int × Nat) (b : Baby) : Int × Nat :=
  if dailyGridOK b && b.hospitalName == some hospital &&
      b.currentLocationOfTheBaby == some location then
    match convert_unix_to_datetime b.dateOfBirth with
    | none => acc
    | some birth =>
        if dailyDischargedOn b targetDate then acc
        else
          let c := dailyBabyCell birth targetDate b.observationDay
          (acc.1 + c.1, acc.2 + c.2)
  else acc

/-- The cell value itself (see `dailyStep` for the per-record body). -/
def daily_cell (baby_data : List Baby) (targetDate : Int)
    (hospital location : String) : DailyCell :=
  let acc := baby_data.foldl (dailyStep targetDate hospital location)
    ((0 : Int), (0 : Nat))
  { total_kmc_minutes := acc.1
    baby_count := acc.2
    average_kmc_hours :=
      if acc.2 > 0 then round1 ((acc.1 : ℚ) / (acc.2 : ℚ) / 60) else 0 }

/-- The `excluded_counts[date_key]` counter of the daily loop: records
that pass the grid test, whose birth date converts, and which are
discharged exactly on the target date. -/
def daily_excluded_count (baby_data : List Baby) (targetDate : Int) : Nat :=
  (baby_data.filter (fun b =>
    dailyGridOK b && (convert_unix_to_datetime b.dateOfBirth).isSome &&
      dailyDischargedOn b targetDate)).length

/-- The three target dates of `calculate_daily_kmc_analysis`: offsets 1,
2, 3 days before the injected current date (`datetime.now().date()` in
the source). -/
def dailyTargetDates (todayDate : Int) : List Int :=
  [todayDate - 1, todayDate - 2, todayDate - 3]

/-! ### Claim C2: entries with an absent `ageDay` -/

/-- An observation entry with every field absent or falsy, for building
concrete inputs. -/
def emptyObs : ObsDay :=
  { ageDay := none, totalKMCtimeDay := 0, filledCorrectly := .pnone,
    kmcfilledcorrectly := .pnone, mnecomment := "", unstableForKMC := none,
    dangerSign := "" }

/-- Removes the observation entries whose `ageDay` is absent. -/
def dropNoneAge (b : Baby) : Baby :=
  { b with observationDay :=
      b.observationDay.filter (fun o => o.ageDay.isSome) }

/-- Replaces an absent `ageDay` by day 0 in every observation entry. -/
def obsAgeZero (o : ObsDay) : ObsDay :=
  { o with ageDay := some (o.ageDay.getD 0) }

/-- Replaces an absent `ageDay` by day 0 in every entry of a record. -/
def ageNoneZero (b : Baby) : Baby :=
  { b with observationDay := b.observationDay.map obsAgeZero }

/-- A fold that ignores entries with absent `ageDay` is unchanged by
removing them. -/
theorem foldl_skipNone {β : Type} (f : β → ObsDay → β)
    (hf : ∀ st o, o.ageDay = none → f st o = st) :
    ∀ (l : List ObsDay) (st : β),
      (l.filter (fun o => o.ageDay.isSome)).foldl f st = l.foldl f st := by
  intro l
  induction l with
  | nil => intro st; rfl
  | cons o rest ih =>
      intro st
      cases h : o.ageDay with
      | none =>
          simp only [List.filter_cons, h, Option.isSome_none,
            Bool.false_eq_true, if_false, List.foldl_cons, hf st o h, ih]
      | some a =>
          simp only [List.filter_cons, h, Option.isSome_some, if_true,
            List.foldl_cons, ih]

/-- The in-window accumulation step skips entries with absent
`ageDay`. -/
theorem avgObsStep_none (k : String) (bd sd ed : Int)
    (st : List (String × AvgAcc) × Bool) (o : ObsDay)
    (h : o.ageDay = none) : avgObsStep k bd sd ed st o = st := by
  unfold avgObsStep
  rw [h]

/-- The per-record accumulation of the windowed average calculator is
unchanged by removing the entries with absent `ageDay`. -/
theorem avgBabyStep_dropNoneAge (startDate endDate : Int)
    (m : List (String × AvgAcc)) (b : Baby) :
    avgBabyStep startDate endDate m (dropNoneAge b)
      = avgBabyStep startDate endDate m b := by
  unfold avgBabyStep dropNoneAge
  cases h : convert_unix_to_datetime b.dateOfBirth with
  | none => simp only [h]
  | some birth =>
      simp only [h]
      rw [foldl_skipNone]
      intro st o ho
      exact avgObsStep_none _ _ _ _ st o ho

/-- The single-baby daily scan skips entries with absent `ageDay`. -/
theorem dailyBabyCell_dropNone (birth targetDate : Int) (obs : List ObsDay) :
    dailyBabyCell birth targetDate (obs.filter (fun o => o.ageDay.isSome))
      = dailyBabyCell birth targetDate obs := by
  unfold dailyBabyCell
  rw [foldl_skipNone]
  intro st o ho
  rw [ho]

/-- Projection facts for `dropNoneAge`: only `observationDay` changes. -/
theorem dropNoneAge_hospitalName (b : Baby) :
    (dropNoneAge b).hospitalName = b.hospitalName := rfl

/-- Location is unchanged by `dropNoneAge`. -/
theorem dropNoneAge_location (b : Baby) :
    (dropNoneAge b).currentLocationOfTheBaby
      = b.currentLocationOfTheBaby := rfl

/-- Birth date is unchanged by `dropNoneAge`. -/
theorem dropNoneAge_dateOfBirth (b : Baby) :
    (dropNoneAge b).dateOfBirth = b.dateOfBirth := rfl

/-- Last discharge date is unchanged by `dropNoneAge`. -/
theorem dropNoneAge_lastDischargeDate (b : Baby) :
    (dropNoneAge b).lastDischargeDate = b.lastDischargeDate := rfl

/-- The observation list of `dropNoneAge` is the filtered list. -/
theorem dropNoneAge_observationDay (b : Baby) :
    (dropNoneAge b).observationDay
      = b.observationDay.filter (fun o => o.ageDay.isSome) := rfl

/-- The per-record daily contribution is unchanged by removing the
entries with absent `ageDay`. -/
theorem dailyStep_dropNoneAge (t : Int) (hosp loc : String)
    (acc : Int × Nat) (b : Baby) :
    dailyStep t hosp loc acc (dropNoneAge b) = dailyStep t hosp loc acc b := by
  cases he : (b.observationDay.filter (fun o => o.ageDay.isSome)).isEmpty with
  | false =>
      have horig : b.observationDay.isEmpty = false := by
        cases hl : b.observationDay with
        | nil => rw [hl] at he; simp at he
        | cons x xs => rfl
      simp only [dailyStep, dailyGridOK, dropNoneAge_hospitalName,
        dropNoneAge_location, dropNoneAge_dateOfBirth,
        dropNoneAge_lastDischargeDate, dropNoneAge_observationDay, he, horig,
        dailyBabyCell_dropNone, dailyDischargedOn]
  | true =>
      have hnil : b.observationDay.filter (fun o => o.ageDay.isSome) = [] :=
        List.isEmpty_iff.mp he
      have hL : dailyStep t hosp loc acc (dropNoneAge b) = acc := by
        simp [dailyStep, dailyGridOK, dropNoneAge_observationDay, hnil]
      rw [hL]
      unfold dailyStep
      cases hC : (dailyGridOK b && b.hospitalName == some hosp &&
          b.currentLocationOfTheBaby == some loc) with
      | false => simp [hC]
      | true =>
          simp only [hC, if_true]
          cases hb : convert_unix_to_datetime b.dateOfBirth with
          | none => rfl
          | some birth =>
              have hcell : dailyBabyCell birth t b.observationDay = (0, 0) := by
                rw [← dailyBabyCell_dropNone birth t b.observationDay, hnil]
                rfl
              simp [hcell]

/-- The first-KMC scan only reads `ageDay` through `getD 0`, so replacing
an absent `ageDay` by day 0 does not change it. -/
theorem firstKMCLoop_ageNoneZero (birth : Int) :
    ∀ (l : List ObsDay) (acc : Option (Int × ℚ)),
      firstKMCLoop birth (l.map obsAgeZero) acc = firstKMCLoop birth l acc := by
  intro l
  induction l with
  | nil => intro acc; rfl
  | cons o rest ih =>
      intro acc
      have h1 : (obsAgeZero o).totalKMCtimeDay = o.totalKMCtimeDay := rfl
      have h2 : (obsAgeZero o).ageDay.getD 0 = o.ageDay.getD 0 := by
        cases h : o.ageDay <;> simp [obsAgeZero, h]
      simp only [List.map_cons, firstKMCLoop, h1, h2]
      by_cases hp : o.totalKMCtimeDay > 0
      · simp only [hp, if_true]
        cases acc with
        | none => exact ih _
        | some a =>
            by_cases hlt : birth + 86400 * o.ageDay.getD 0 < a.1
            · simp only [hlt, if_true]
              exact ih _
            · simp only [hlt, if_false]
              exact ih _
      · simp only [hp, if_false]
        exact ih _

/-- Replacing an absent `ageDay` by day 0 leaves every per-record
initiation entry unchanged. -/
theorem initEntryOf_ageNoneZero (b : Baby) :
    initEntryOf (ageNoneZero b) = initEntryOf b := by
  unfold initEntryOf
  have hUID : (ageNoneZero b).UID = b.UID := rfl
  have hdob : (ageNoneZero b).dateOfBirth = b.dateOfBirth := rfl
  have hobs : (ageNoneZero b).observationDay
      = b.observationDay.map obsAgeZero := rfl
  have hhos : (ageNoneZero b).hospitalName = b.hospitalName := rfl
  have hloc : (ageNoneZero b).currentLocationOfTheBaby
      = b.currentLocationOfTheBaby := rfl
  have hin : isInbornPlace (ageNoneZero b) = isInbornPlace b := rfl
  rw [hUID, hdob, hobs, hhos, hloc, hin]
  cases convert_unix_to_datetime b.dateOfBirth with
  | none => rfl
  | some birth => simp only [firstKMCLoop_ageNoneZero]

/-- Claim C2 counterexample input: one record with a single observation
entry that has 60 minutes of KMC and no `ageDay`. -/
def c2Baby : Baby :=
  { emptyBaby with
    UID := "B2", source := "baby", dateOfBirth := some 86400,
    observationDay := [{ emptyObs with totalKMCtimeDay := 60 }] }

/-- Claim C2, as stated, is false for the KMC-initiation calculator: an
observation entry with absent `ageDay` (and positive minutes) is not
excluded — `obs_day.get('ageDay', 0)` treats it as day 0, so the record
is counted with an initiation lag of 0 hours, inside the 24h bucket. -/
theorem C2_counterexample_missing_ageDay_counted :
    (calculate_kmc_initiation_metrics [c2Baby]).total_babies_with_kmc = 1 ∧
    (calculate_kmc_initiation_metrics [c2Baby]).within_24h_count = 1 ∧
    (calculate_kmc_initiation_metrics [c2Baby]).initiation_data.map
        (fun e => e.time_to_initiation_seconds) = [0] := by
  refine ⟨by decide, by decide, by decide⟩

/-- Claim C2 as amended: an observation entry whose `ageDay` is absent is
excluded from the windowed average-KMC-by-location accumulation and from
the daily per-location snapshot cells (removing such entries changes
neither result), while the KMC-initiation calculator instead treats an
absent `ageDay` as day 0 (replacing absent `ageDay` by day 0 changes
nothing there). -/
theorem C2_amended_missing_ageDay :
    (∀ (baby_data : List Baby) (startDate endDate : Int),
        calculate_average_kmc_by_location (baby_data.map dropNoneAge)
            startDate endDate
          = calculate_average_kmc_by_location baby_data startDate endDate) ∧
    (∀ (baby_data : List Baby) (targetDate : Int) (hosp loc : String),
        daily_cell (baby_data.map dropNoneAge) targetDate hosp loc
          = daily_cell baby_data targetDate hosp loc) ∧
    (∀ baby_data : List Baby,
        calculate_kmc_initiation_metrics (baby_data.map ageNoneZero)
          = calculate_kmc_initiation_metrics baby_data) := by
  refine ⟨?_, ?_, ?_⟩
  · intro baby_data startDate endDate
    unfold calculate_average_kmc_by_location
    rw [List.foldl_map]
    have : (fun (m : List (String × AvgAcc)) (b : Baby) =>
        avgBabyStep startDate endDate m (dropNoneAge b))
        = avgBabyStep startDate endDate := by
      funext m b
      exact avgBabyStep_dropNoneAge startDate endDate m b
    rw [this]
  · intro baby_data targetDate hosp loc
    unfold daily_cell
    rw [List.foldl_map]
    have : (fun (acc : Int × Nat) (b : Baby) =>
        dailyStep targetDate hosp loc acc (dropNoneAge b))
        = dailyStep targetDate hosp loc := by
      funext acc b
      exact dailyStep_dropNoneAge targetDate hosp loc acc b
    rw [this]
  · intro baby_data
    unfold calculate_kmc_initiation_metrics
    rw [List.filterMap_map]
    have : (initEntryOf ∘ ageNoneZero) = initEntryOf := by
      funext b
      exact initEntryOf_ageNoneZero b
    rw [this]

/-! ### Discharge-outcome classification (`clean_emoji_text`, source
lines 647-659, and `categorize_discharge_from_collection`, lines
661-721) -/

/-- Membership in the character class of the source's `emoji_pattern`:
emoticons, symbols and pictographs, transport and map symbols, flags,
dingbats, and the broad `U+24C2 - U+1F251` range. -/
def isEmojiChar (c : Char) : Bool :=
  (0x1F600 ≤ c.toNat && c.toNat ≤ 0x1F64F) ||
  (0x1F300 ≤ c.toNat && c.toNat ≤ 0x1F5FF) ||
  (0x1F680 ≤ c.toNat && c.toNat ≤ 0x1F6FF) ||
  (0x1F1E0 ≤ c.toNat && c.toNat ≤ 0x1F1FF) ||
  (0x2702 ≤ c.toNat && c.toNat ≤ 0x27B0) ||
  (0x24C2 ≤ c.toNat && c.toNat ≤ 0x1F251)

/-- Embedding of `clean_emoji_text`: delete every character of the emoji
class, then strip surrounding whitespace. -/
def clean_emoji_text (text : String) : String :=
  pyStrip (String.mk (text.data.filter (fun c => !isEmojiChar c)))

/-- Embedding of the `source == 'discharges'` branch of
`categorize_discharge_from_collection`: case-insensitive equality on
`dischargeStatus` / `dischargeType`. -/
def categorize_discharge_from_collection_discharges
    (record : DischargeRecord) : String :=
  let discharge_status := pyLower record.dischargeStatus
  let discharge_type := pyLower record.dischargeType
  if discharge_status == "critical" && discharge_type == "home" then
    "critical_home"
  else if discharge_status == "stable" && discharge_type == "home" then
    "stable_home"
  else if discharge_status == "critical" && discharge_type == "referred" then
    "critical_referred"
  else if discharge_type == "died" then "died"
  else "other"

/-- Embedding of the `source == 'babyBackUp'` branch of
`categorize_discharge_from_collection` on the record's
`dischargedStatusString`.  As in the source, the emoji-cleaned string and
its lowercase form are computed but never consulted (the binding is kept,
underscore-named, to mirror lines 694-696): every ASCII-phrase test runs
on the lowercased *unstripped* string, and the script-specific death
phrases on the unstripped original. -/
def categorize_backup_status (discharge_status_string : String) : String :=
  let cleaned_string := clean_emoji_text discharge_status_string
  let discharge_status_lower := pyLower discharge_status_string
  let _cleaned_lower := pyLower cleaned_string
  if containsS discharge_status_lower "critical and discharged" then
    "critical_home"
  else if containsS discharge_status_lower
        "discharged according to criteria" ||
      containsS discharge_status_lower "stable" then
    "stable_home"
  else if containsS discharge_status_lower "referred out" ||
      containsS discharge_status_lower "critical" then
    "critical_referred"
  else if containsS discharge_status_string "डिस्चार्ज से पहले ही मृत्यु हो गई" ||
      containsS discharge_status_lower "died before discharge" ||
      containsS discharge_status_string "मृत्यु हो गई" ||
      containsS discharge_status_lower "death" then
    "died"
  else "other"

/-- The backup branch applied to a baby record (the source reads
`record.get('dischargedStatusString', '')`). -/
def categorize_discharge_from_collection_babyBackUp (b : Baby) : String :=
  categorize_backup_status b.dischargedStatusString

/-- Claim C3 input: the phrase `critical and discharged` interrupted by
one emoticon (U+1F600) between `and ` and `discharged`. -/
def c3Status : String :=
  "critical and " ++ String.mk [Char.ofNat 0x1F600] ++ "discharged"

/-- Claim C3: the spec says pictographic characters are stripped before
the ASCII-phrase tests.  The source computes the cleaned string but
tests the unstripped one, so a status whose ASCII phrase is interrupted
only by an emoji falls past the `critical and discharged` rule and lands
on the generic `critical` rule; on the cleaned string (what the spec
prescribes) the same classifier answers `critical_home`. -/
theorem C3_ascii_phrases_tested_unstripped :
    clean_emoji_text c3Status = "critical and discharged" ∧
    categorize_backup_status c3Status = "critical_referred" ∧
    categorize_backup_status (clean_emoji_text c3Status)
      = "critical_home" := by
  refine ⟨by decide, by decide, by decide⟩

/-! ### Discharge outcomes (`calculate_discharge_outcomes`, source lines
723-791) -/

/-- The report of `calculate_discharge_outcomes` (category member lists
are carried as counts; each category's `babies` list has exactly
`count` elements). -/
structure DischargeOutcomesReport where
  total_discharged : Nat
  critical_home_count : Nat
  stable_home_count : Nat
  critical_referred_count : Nat
  died_count : Nat
  other_count : Nat
  critical_home_percentage : ℚ
  stable_home_percentage : ℚ
  critical_referred_percentage : ℚ
  died_percentage : ℚ
  unique_babies_processed : Nat
  deriving DecidableEq, Repr

/-- First pass of `calculate_discharge_outcomes`: the `discharges`
collection, deduplicated by `UID`, each record classified by the
primary-discharge rules.  Returns the classification labels in
processing order together with the grown `processed_uids` set. -/
def doLoopDischarges :
    List DischargeRecord → List String → List String × List String
  | [], seen => ([], seen)
  | d :: rest, seen =>
      if d.UID = "" || seen.contains d.UID then doLoopDischarges rest seen
      else
        let r := doLoopDischarges rest (d.UID :: seen)
        (categorize_discharge_from_collection_discharges d :: r.1, r.2)

/-- Second pass: the records tagged `babyBackUp`, continuing the same
`processed_uids` set, classified by the backup free-text rules. -/
def doLoopBackup : List Baby → List String → List String × List String
  | [], seen => ([], seen)
  | b :: rest, seen =>
      if b.UID = "" || seen.contains b.UID then doLoopBackup rest seen
      else
        let r := doLoopBackup rest (b.UID :: seen)
        (categorize_discharge_from_collection_babyBackUp b :: r.1, r.2)

/-- Embedding of `calculate_discharge_outcomes`: discharges collection
first, then the `babyBackUp`-sourced records, `UID`-deduplicated across
both; category counts, zero-guarded percentages. -/
def calculate_discharge_outcomes (baby_data : List Baby)
    (discharge_data : List DischargeRecord) : DischargeOutcomesReport :=
  let r1 := doLoopDischarges discharge_data []
  let r2 := doLoopBackup
    (baby_data.filter (fun b => b.source == "babyBackUp")) r1.2
  let cats := r1.1 ++ r2.1
  let cnt := fun (c : String) => (cats.filter (fun x => x == c)).length
  let total := cats.length
  { total_discharged := total
    critical_home_count := cnt "critical_home"
    stable_home_count := cnt "stable_home"
    critical_referred_count := cnt "critical_referred"
    died_count := cnt "died"
    other_count := cnt "other"
    critical_home_percentage :=
      if total > 0 then (cnt "critical_home" : ℚ) / (total : ℚ) * 100 else 0
    stable_home_percentage :=
      if total > 0 then (cnt "stable_home" : ℚ) / (total : ℚ) * 100 else 0
    critical_referred_percentage :=
      if total > 0 then
        (cnt "critical_referred" : ℚ) / (total : ℚ) * 100
      else 0
    died_percentage :=
      if total > 0 then (cnt "died" : ℚ) / (total : ℚ) * 100 else 0
    unique_babies_processed := r2.2.length }

/-! ### Critical reasons (`calculate_individual_critical_reasons`,
source lines 793-873) -/

/-- The single-quote character, written by code point to keep apostrophes
out of the source text. -/
def quoteChar : Char := Char.ofNat 39

/-- The double-quote character. -/
def dquoteChar : Char := Char.ofNat 34

/-- State machine equivalent to `re.findall(r"'([^']*)'", s)`: quote
characters alternately open and close a capture; an unclosed capture at
the end of input matches nothing, and matches never overlap. -/
def findQuotedAux : List Char → Option (List Char) → List String
  | [], _ => []
  | c :: rest, none =>
      if c == quoteChar then findQuotedAux rest (some [])
      else findQuotedAux rest none
  | c :: rest, some cur =>
      if c == quoteChar then
        String.mk cur.reverse :: findQuotedAux rest none
      else findQuotedAux rest (some (c :: cur))

/-- All single-quoted substrings of a character list, in order. -/
def findQuoted (l : List Char) : List String := findQuotedAux l none

/-- Python `s.startswith('[') and s.endswith(']')`. -/
def bracketDelimited (s : String) : Bool :=
  s.data.head? == some '[' && s.data.getLast? == some ']'

/-- Splitting on commas (Python `str.split(',')`), used by the
literal-list model below. -/
def splitCommaAux : List Char → List Char → List String
  | [], cur => [String.mk cur.reverse]
  | c :: rest, cur =>
      if c == ',' then String.mk cur.reverse :: splitCommaAux rest []
      else splitCommaAux rest (c :: cur)

/-- Splitting a character list on commas. -/
def splitComma (l : List Char) : List String := splitCommaAux l []

/-- One item of a list literal: after trimming it must be a
quote-delimited string (single or double quotes) with no inner quote of
the same kind. -/
def parseQuotedItem (s : String) : Option String :=
  let t := pyStrip s
  match t.data with
  | [] => none
  | c :: rest =>
      if c == quoteChar || c == dquoteChar then
        match rest.getLast? with
        | none => none
        | some d =>
            if d == c then
              let inner := rest.dropLast
              if inner.contains c then none else some (String.mk inner)
            else none
      else none

/-- Restricted model of `ast.literal_eval` as the source uses it: a
bracket-delimited, comma-separated sequence of quoted string items (the
encoding §4.3 documents, e.g. `"['GA', 'weightLoss>2%']"`), `none` where
the Python call raises.  Literals outside this shape — numbers, tuples,
escapes, quotes or commas inside an item — are outside the model; every
concrete input below is within it. -/
def literalEvalList (s : String) : Option (List String) :=
  let t := pyStrip s
  if bracketDelimited t then
    let inner := String.mk (t.data.drop 1).dropLast
    if pyStrip inner = "" then some []
    else (splitComma inner.data).mapM parseQuotedItem
  else none

/-- The parse of one `criticalReasons` field (source lines 817-831): if
the trimmed string is bracket-delimited, try the literal-list parse and
fall back to the quoted-substring extraction when it fails; otherwise
the whole trimmed string is one reason.  Note there is no further
fallback when the extraction finds nothing: the result is then empty. -/
def reasons_list_of (field : String) : List String :=
  let s := pyStrip field
  if bracketDelimited s then
    match literalEvalList s with
    | some l => l
    | none => findQuoted s.data
  else [s]

/-- Modelled from the spec (§4.3 and claim C4): the claimed three-step
chain, in which an empty quoted-substring extraction falls back to
treating the entire string as one reason. -/
def specParseChain (field : String) : List String :=
  let s := pyStrip field
  if bracketDelimited s then
    match literalEvalList s with
    | some l => l
    | none =>
        let q := findQuoted s.data
        if q.isEmpty then [s] else q
  else [s]

/-- Dict update touching the first (hence, for the unique-keyed dicts the
source builds, the only) entry with the key. -/
def assocUpdFirst {α : Type} :
    List (String × α) → String → (α → α) → List (String × α)
  | [], _, _ => []
  | p :: rest, k, f =>
      if p.1 == k then (p.1, f p.2) :: rest
      else p :: assocUpdFirst rest k f

/-- Counting one extracted reason token (source lines 834-849): create
the counter on first sight at the end of the dict, else increment it;
the contributing `UID` is appended to the reason's member list. -/
def reasonStep (uid : String) (m : List (String × (Nat × List String)))
    (tok : String) : List (String × (Nat × List String)) :=
  if assocHas m tok then
    assocUpdFirst m tok (fun p => (p.1 + 1, p.2 ++ [uid]))
  else m ++ [(tok, (1, [uid]))]

/-- The per-record body of the critical-reason loop: skip a falsy or
repeated `UID` and a blank reasons field; otherwise count the record in
`total_babies_with_reasons` and count every trimmed, non-empty extracted
token. -/
def reasonsRecordStep
    (st : List (String × (Nat × List String)) × Nat × List String)
    (d : DischargeRecord) :
    List (String × (Nat × List String)) × Nat × List String :=
  if d.UID = "" || st.2.2.contains d.UID then st
  else if d.criticalReasons = "" || pyStrip d.criticalReasons = "" then st
  else
    let toks := reasons_list_of d.criticalReasons
    let m := toks.foldl (fun mm tok =>
      let r := pyStrip tok
      if r != "" then reasonStep d.UID mm r else mm) st.1
    (m, st.2.1 + 1, d.UID :: st.2.2)

/-- The report of `calculate_individual_critical_reasons`: the
reason-keyed dict (count and contributing UIDs per reason), the number of
records with a non-blank reasons field, and the number of distinct
reasons. -/
structure ReasonsReport where
  individual_reasons : List (String × (Nat × List String))
  total_babies_with_reasons : Nat
  total_unique_reasons : Nat
  deriving DecidableEq, Repr

/-- Embedding of `calculate_individual_critical_reasons`. -/
def calculate_individual_critical_reasons
    (discharge_data : List DischargeRecord) : ReasonsReport :=
  let st := discharge_data.foldl reasonsRecordStep ([], 0, [])
  { individual_reasons := st.1
    total_babies_with_reasons := st.2.1
    total_unique_reasons := st.1.length }

/-- Claim C4 counterexample input: a bracket-delimited reasons string
with unquoted content, `"[abc]"`. -/
def c4Record : DischargeRecord :=
  { UID := "D1", hospitalName := none, dischargeStatus := "",
    dischargeType := "", criticalReasons := "[abc]" }

/-- Claim C4, as stated, is false: on `"[abc]"` the literal parse fails
and the quoted-substring extraction finds nothing, and the source then
counts no reason at all for the record — the whole-string fallback the
claim describes (which would count one reason `"[abc]"`, as
`specParseChain` shows) only applies to strings that are not
bracket-delimited.  The record still counts toward
`total_babies_with_reasons`. -/
theorem C4_counterexample_bracket_without_quotes :
    (calculate_individual_critical_reasons
        [c4Record]).total_babies_with_reasons = 1 ∧
    (calculate_individual_critical_reasons [c4Record]).individual_reasons
      = [] ∧
    specParseChain "[abc]" = ["[abc]"] := by
  refine ⟨by decide, by decide, by decide⟩

/-- The tokens of a parsed reason list that actually get counted: each
trimmed, kept when non-empty. -/
def cleanTokens (toks : List String) : List String :=
  (toks.map pyStrip).filter (fun r => r != "")

/-- Total of all per-reason counters of a reasons dict. -/
def countSum (m : List (String × (Nat × List String))) : Nat :=
  (m.map (fun p => p.2.1)).sum

/-- The guarded token fold of the record body counts exactly the clean
tokens. -/
theorem tokenFold_eq_cleanTokens (uid : String) :
    ∀ (toks : List String) (m : List (String × (Nat × List String))),
      toks.foldl (fun mm tok =>
          let r := pyStrip tok
          if r != "" then reasonStep uid mm r else mm) m
        = (cleanTokens toks).foldl (reasonStep uid) m := by
  intro toks
  induction toks with
  | nil => intro m; rfl
  | cons t rest ih =>
      intro m
      by_cases h : pyStrip t = ""
      · simp only [cleanTokens, List.map_cons, List.filter_cons, h,
          List.foldl_cons, bne_self_eq_false, if_neg] at *
        simpa [h] using ih m
      · simp only [cleanTokens, List.map_cons, List.filter_cons,
          List.foldl_cons] at *
        have hb : (pyStrip t != "") = true := by simpa using h
        simp only [hb, if_true, if_pos]
        simpa [hb] using ih (reasonStep uid m (pyStrip t))

/-- Updating an existing counter adds one to the dict total. -/
theorem countSum_assocUpdFirst (uid : String) :
    ∀ (m : List (String × (Nat × List String))) (k : String),
      assocHas m k = true →
      countSum (assocUpdFirst m k (fun p => (p.1 + 1, p.2 ++ [uid])))
        = countSum m + 1 := by
  intro m
  induction m with
  | nil => intro k h; simp [assocHas] at h
  | cons p rest ih =>
      intro k h
      by_cases hk : p.1 == k
      · simp only [assocUpdFirst, hk, if_true, countSum, List.map_cons,
          List.sum_cons, if_pos]
        omega
      · have h' : assocHas rest k = true := by
          simp only [assocHas, List.any_cons, Bool.or_eq_true] at h
          rcases h with h | h
          · exact absurd h (by simp [hk])
          · exact h
        simp only [assocUpdFirst, hk, Bool.false_eq_true, if_false,
          countSum, List.map_cons, List.sum_cons] at *
        rw [ih k h']
        omega

/-- Counting one token adds one to the dict total. -/
theorem countSum_reasonStep (uid : String)
    (m : List (String × (Nat × List String))) (tok : String) :
    countSum (reasonStep uid m tok) = countSum m + 1 := by
  unfold reasonStep
  by_cases h : assocHas m tok
  · rw [if_pos h, countSum_assocUpdFirst uid m tok h]
  · rw [if_neg h]
    simp [countSum]

/-- Counting a token list adds its length to the dict total. -/
theorem countSum_fold (uid : String) :
    ∀ (l : List String) (m : List (String × (Nat × List String))),
      countSum (l.foldl (reasonStep uid) m) = countSum m + l.length := by
  intro l
  induction l with
  | nil => intro m; simp
  | cons t rest ih =>
      intro m
      simp only [List.foldl_cons, List.length_cons, ih,
        countSum_reasonStep]
      omega

/-- Updating a counter in place does not change the key set. -/
theorem assocHas_assocUpdFirst {α : Type} (f : α → α) :
    ∀ (m : List (String × α)) (k r : String),
      assocHas (assocUpdFirst m k f) r = assocHas m r := by
  intro m
  induction m with
  | nil => intro k r; rfl
  | cons p rest ih =>
      intro k r
      by_cases hk : p.1 == k
      · simp [assocUpdFirst, hk, assocHas]
      · simp only [assocUpdFirst, assocHas, List.any_cons]
        rw [if_neg hk]
        have hrest := ih k r
        simp only [assocHas] at hrest
        simp only [List.any_cons, hrest]

/-- After counting one token, the key set has gained exactly that
token. -/
theorem assocHas_reasonStep (uid : String)
    (m : List (String × (Nat × List String))) (tok r : String) :
    assocHas (reasonStep uid m tok) r = (assocHas m r || r == tok) := by
  unfold reasonStep
  by_cases h : assocHas m tok
  · rw [if_pos h, assocHas_assocUpdFirst]
    by_cases hr : r = tok
    · subst hr; simp [h]
    · simp [hr]
  · rw [if_neg h]
    simp only [assocHas, List.any_append, List.any_cons, List.any_nil]
    by_cases hr : r = tok
    · subst hr; simp
    · rw [show (tok == r) = false by simp [Ne.symm hr],
        show (r == tok) = false by simp [hr]]
      simp

/-- The key set after counting a token list. -/
theorem assocHas_fold (uid : String) :
    ∀ (l : List String) (m : List (String × (Nat × List String)))
      (r : String),
      assocHas (l.foldl (reasonStep uid) m) r
        = (assocHas m r || l.any (fun t => r == t)) := by
  intro l
  induction l with
  | nil => intro m r; simp
  | cons t rest ih =>
      intro m r
      simp only [List.foldl_cons, List.any_cons, ih, assocHas_reasonStep,
        Bool.or_assoc]

/-- The token fold as `simp` normalises it (if-branches flipped). -/
theorem tokenFold_eq_cleanTokens' (uid : String) :
    ∀ (toks : List String) (m : List (String × (Nat × List String))),
      toks.foldl (fun mm tok =>
          if pyStrip tok = "" then mm else reasonStep uid mm (pyStrip tok)) m
        = (cleanTokens toks).foldl (reasonStep uid) m := by
  intro toks m
  rw [← tokenFold_eq_cleanTokens uid toks m]
  congr 1
  funext mm tok
  by_cases h : pyStrip tok = "" <;> simp [h]

/-- Claim C4 as amended: a bracket-delimited trimmed string is parsed by
the literal-list parse, falling back on failure to the quoted-substring
extraction with no further fallback, while a non-bracket-delimited string
is treated whole as one reason; a record with a non-blank reasons field
always counts toward `total_babies_with_reasons`, every trimmed non-empty
extracted token increments its own reason counter (the counter total
equals the number of such tokens, and a reason key exists exactly for
them), and only an empty extraction leaves the record out of the
per-reason counts. -/
theorem C4_amended_parse_chain :
    (∀ field : String, bracketDelimited (pyStrip field) = false →
        reasons_list_of field = [pyStrip field]) ∧
    (∀ (field : String) (l : List String),
        bracketDelimited (pyStrip field) = true →
        literalEvalList (pyStrip field) = some l →
        reasons_list_of field = l) ∧
    (∀ field : String, bracketDelimited (pyStrip field) = true →
        literalEvalList (pyStrip field) = none →
        reasons_list_of field = findQuoted (pyStrip field).data) ∧
    (∀ d : DischargeRecord, d.UID ≠ "" → pyStrip d.criticalReasons ≠ "" →
        (calculate_individual_critical_reasons
            [d]).total_babies_with_reasons = 1 ∧
        countSum (calculate_individual_critical_reasons
            [d]).individual_reasons
          = (cleanTokens (reasons_list_of d.criticalReasons)).length ∧
        (∀ r : String,
          assocHas (calculate_individual_critical_reasons
              [d]).individual_reasons r = true ↔
            r ∈ cleanTokens (reasons_list_of d.criticalReasons))) := by
  refine ⟨?_, ?_, ?_, ?_⟩
  · intro field h
    simp only [reasons_list_of]
    rw [h]
    simp
  · intro field l h hl
    simp only [reasons_list_of]
    rw [h, hl]
    simp
  · intro field h hl
    simp only [reasons_list_of]
    rw [h, hl]
    simp
  · intro d hUID hstrip
    have hcr : ¬ d.criticalReasons = "" := by
      intro hc
      rw [hc] at hstrip
      exact hstrip rfl
    have hstep : calculate_individual_critical_reasons [d]
        = { individual_reasons :=
              (cleanTokens (reasons_list_of d.criticalReasons)).foldl
                (reasonStep d.UID) []
            total_babies_with_reasons := 1
            total_unique_reasons :=
              ((cleanTokens (reasons_list_of d.criticalReasons)).foldl
                (reasonStep d.UID) []).length } := by
      unfold calculate_individual_critical_reasons
      simp only [List.foldl_cons, List.foldl_nil]
      unfold reasonsRecordStep
      simp [hUID, hcr, hstrip, tokenFold_eq_cleanTokens' d.UID]
    rw [hstep]
    refine ⟨rfl, ?_, ?_⟩
    · simpa [countSum] using
        countSum_fold d.UID
          (cleanTokens (reasons_list_of d.criticalReasons)) []
    · intro r
      rw [assocHas_fold]
      simp only [assocHas, List.any_nil, Bool.false_or, List.any_eq_true,
        beq_iff_eq]
      constructor
      · rintro ⟨t, ht, rfl⟩
        exact ht
      · intro hr
        exact ⟨r, hr, rfl⟩

/-! ### Hospital stay duration (`calculate_hospital_stay_duration`,
source lines 993-1070) -/

/-- One element of the calculator's `stay_data` list. -/
structure StayRec where
  UID : String
  hospital : String
  location : String
  stay_duration_days : ℚ
  deriving DecidableEq, Repr

/-- The source-appropriate discharge instant (source lines 1009-1020):
`lastDischargeDate` for the `baby` collection, `dischargeDate` for
`babyBackUp`, nothing otherwise; the field must be truthy and convert. -/
def stay_discharge_date (b : Baby) : Option Int :=
  if b.source = "baby" then
    match b.lastDischargeDate with
    | some v => if v ≠ 0 then convert_unix_to_datetime (some v) else none
    | none => none
  else if b.source = "babyBackUp" then
    match b.dischargeDate with
    | some v => if v ≠ 0 then convert_unix_to_datetime (some v) else none
    | none => none
  else none

/-- The `stay_data` loop (source lines 998-1037): `UID`-deduplicated;
a record is kept exactly when its birth date converts, a
source-appropriate discharge date exists, and the discharge instant is
strictly after birth; the duration is
`(discharge - birth).total_seconds() / (24 * 3600)` days. -/
def stay_records : List Baby → List String → List StayRec
  | [], _ => []
  | b :: rest, seen =>
      if b.UID = "" || seen.contains b.UID then stay_records rest seen
      else
        match convert_unix_to_datetime b.dateOfBirth with
        | none => stay_records rest (b.UID :: seen)
        | some birth =>
            match stay_discharge_date b with
            | none => stay_records rest (b.UID :: seen)
            | some dd =>
                if birth < dd then
                  { UID := b.UID
                    hospital := b.hospitalName.getD "Unknown"
                    location := b.currentLocationOfTheBaby.getD "Unknown"
                    stay_duration_days := ((dd - birth : Int) : ℚ) / 86400 }
                    :: stay_records rest (b.UID :: seen)
                else stay_records rest (b.UID :: seen)

/-- Python `int()` truncation toward zero on an exact rational. -/
def ratTrunc (q : ℚ) : Int := if 0 ≤ q then ⌊q⌋ else -⌊-q⌋

/-- The `avg_formatted` string of the source (lines 1060-1064):
`days = int(avg)`, `hours = int((avg - days) * 24)`,
`f"{days} days {hours} hours"`.  Both conversions truncate. -/
def formatStay (avg : ℚ) : String :=
  let days := ratTrunc avg
  let hours := ratTrunc ((avg - (days : ℚ)) * 24)
  toString days ++ " days " ++ toString hours ++ " hours"

/-- Modelled from the spec (claim C5's formatting formula): `floor(days)`
days and `round((days - floor(days)) * 24)` hours. -/
def specRoundFormat (avg : ℚ) : String :=
  let days := ⌊avg⌋
  let hours := round ((avg - (days : ℚ)) * 24)
  toString days ++ " days " ++ toString hours ++ " hours"

/-- Per-location grouping of stay records (source lines 1040-1054): the
location-keyed dict accumulates `count` and `total_days` in record
order. -/
def stayGroup (recs : List StayRec) : List (String × (Nat × ℚ)) :=
  recs.foldl (fun m r =>
    if assocHas m r.location then
      assocUpdFirst m r.location
        (fun p => (p.1 + 1, p.2 + r.stay_duration_days))
    else m ++ [(r.location, (1, r.stay_duration_days))]) []

/-- One location's block of `location_stats` (the `durations` list the
source also stores is the multiset the two carried fields summarise). -/
structure LocStats where
  count : Nat
  total_days : ℚ
  avg_days : ℚ
  avg_formatted : String
  deriving DecidableEq, Repr

/-- The report of `calculate_hospital_stay_duration`. -/
structure StayReport where
  location_stats : List (String × LocStats)
  total_babies : Nat
  deriving DecidableEq, Repr

/-- Embedding of `calculate_hospital_stay_duration`: deduplicated,
filtered stay records, grouped by location, with the average both as a
fractional day count and as the truncated days-and-hours string (the
`count > 0` guard and the `'0 days 0 hours'` initial value are the
source's lines 1044-1064). -/
def calculate_hospital_stay_duration (baby_data : List Baby) : StayReport :=
  let recs := stay_records baby_data []
  let m := stayGroup recs
  { location_stats := m.map (fun p =>
      if p.2.1 > 0 then
        let avg := p.2.2 / (p.2.1 : ℚ)
        (p.1, { count := p.2.1, total_days := p.2.2, avg_days := avg,
                avg_formatted := formatStay avg })
      else
        (p.1, { count := p.2.1, total_days := p.2.2, avg_days := 0,
                avg_formatted := "0 days 0 hours" }))
    total_babies := recs.length }

/-- Claim C5 input: one `baby`-sourced record, born at 86400 and
discharged 172000 seconds (about 1.99 days) later. -/
def c5Baby : Baby :=
  { emptyBaby with
    UID := "S1", source := "baby",
    currentLocationOfTheBaby := some "Ward",
    dateOfBirth := some 86400,
    lastDischargeDate := some 258400 }

/-- `int()` is `Int.floor` on non-negative input. -/
theorem ratTrunc_nonneg (q : ℚ) (h : 0 ≤ q) : ratTrunc q = ⌊q⌋ := by
  unfold ratTrunc
  rw [if_pos h]

/-- The truncated rendering of the C5 average. -/
theorem formatStay_c5 : formatStay ((172000 : ℚ) / 86400) = "1 days 23 hours" := by
  have h1 : ratTrunc ((172000 : ℚ) / 86400) = 1 := by
    rw [ratTrunc_nonneg _ (by norm_num)]
    rw [Int.floor_eq_iff]
    norm_num
  have h2 : ratTrunc (((172000 : ℚ) / 86400 - ((1 : Int) : ℚ)) * 24) = 23 := by
    rw [ratTrunc_nonneg _ (by norm_num)]
    rw [Int.floor_eq_iff]
    norm_num
  simp only [formatStay, h1, h2]
  rfl

/-- The round-based rendering the claim prescribes for the same value. -/
theorem specRoundFormat_c5 :
    specRoundFormat ((172000 : ℚ) / 86400) = "1 days 24 hours" := by
  have h1 : (⌊(172000 : ℚ) / 86400⌋ : Int) = 1 := by
    rw [Int.floor_eq_iff]
    norm_num
  have h2 : round (((172000 : ℚ) / 86400 - ((1 : Int) : ℚ)) * 24) = 24 := by
    rw [round_eq]
    rw [Int.floor_eq_iff]
    norm_num
  simp only [specRoundFormat, h1, h2]
  rfl

/-- Claim C5, as stated, is false in its formatting clause: the source
renders the hour remainder with `int()` (truncation), not `round`.  For
an average stay of 172000/86400 ≈ 1.99 days the source prints
`1 days 23 hours` while the claimed `round((days - floor(days)) * 24)`
formula prints `1 days 24 hours`. -/
theorem C5_counterexample_hours_truncated_not_rounded :
    (calculate_hospital_stay_duration [c5Baby]).location_stats.map
        (fun p => (p.1, p.2.avg_formatted))
      = [("Ward", "1 days 23 hours")] ∧
    specRoundFormat ((172000 : ℚ) / 86400) = "1 days 24 hours" ∧
    (calculate_hospital_stay_duration [c5Baby]).location_stats.map
        (fun p => p.2.avg_days) = [(172000 : ℚ) / 86400] := by
  have hq : ((258400 - 86400 : Int) : ℚ) / 86400 / ((1 : Nat) : ℚ)
      = (172000 : ℚ) / 86400 := by norm_num
  refine ⟨?_, specRoundFormat_c5, ?_⟩
  · show [("Ward", formatStay (((258400 - 86400 : Int) : ℚ) / 86400
        / ((1 : Nat) : ℚ)))] = [("Ward", "1 days 23 hours")]
    rw [hq, formatStay_c5]
  · show [((258400 - 86400 : Int) : ℚ) / 86400 / ((1 : Nat) : ℚ)]
      = [(172000 : ℚ) / 86400]
    rw [hq]

/-- Claim C5 as amended: inclusion and duration as claimed — a record
enters the calculation exactly when its birth date converts, a
source-appropriate discharge date exists, and the discharge instant is
strictly after birth, with duration `(discharge - birth) / 86400` days
grouped by current location and averaged as `total / count` — but the
whole-days-plus-hours string truncates the hour remainder:
`floor(days)` days and `floor((days - floor(days)) * 24)` hours. -/
theorem C5_amended_stay_duration :
    (∀ b : Baby, b.UID ≠ "" →
      ((stay_records [b] [] ≠ []) ↔
        (∃ bt dd, convert_unix_to_datetime b.dateOfBirth = some bt ∧
          stay_discharge_date b = some dd ∧ bt < dd)) ∧
      (∀ bt dd, convert_unix_to_datetime b.dateOfBirth = some bt →
        stay_discharge_date b = some dd → bt < dd →
        stay_records [b] [] =
          [{ UID := b.UID, hospital := b.hospitalName.getD "Unknown",
             location := b.currentLocationOfTheBaby.getD "Unknown",
             stay_duration_days := ((dd - bt : Int) : ℚ) / 86400 }])) ∧
    (∀ q : ℚ, 0 ≤ q →
      formatStay q = toString ⌊q⌋ ++ " days "
        ++ toString ⌊(q - (⌊q⌋ : ℚ)) * 24⌋ ++ " hours") ∧
    (∀ (data : List Baby) (p : String × LocStats),
      p ∈ (calculate_hospital_stay_duration data).location_stats →
      0 < p.2.count →
      p.2.avg_days = p.2.total_days / (p.2.count : ℚ) ∧
      p.2.avg_formatted = formatStay p.2.avg_days) := by
  refine ⟨?_, ?_, ?_⟩
  · intro b hUID
    have hguard : (decide (b.UID = "") || List.contains [] b.UID) = false := by
      simp [hUID]
    constructor
    · simp only [stay_records, hguard, Bool.false_eq_true, if_neg,
        not_false_eq_true]
      cases hb : convert_unix_to_datetime b.dateOfBirth with
      | none => simp [hb]
      | some bt =>
          cases hd : stay_discharge_date b with
          | none => simp [hb, hd]
          | some dd =>
              by_cases hlt : bt < dd
              · simp [hb, hd, hlt]
              · simp [hb, hd, hlt]
    · intro bt dd hb hd hlt
      simp only [stay_records, hguard, Bool.false_eq_true, if_neg,
        not_false_eq_true, hb, hd, hlt, if_pos]
  · intro q hq
    have h2 : (0 : ℚ) ≤ (q - (⌊q⌋ : ℚ)) * 24 :=
      mul_nonneg (sub_nonneg.mpr (Int.floor_le q)) (by norm_num)
    simp only [formatStay, ratTrunc_nonneg q hq, ratTrunc_nonneg _ h2]
  · intro data p hp hcount
    unfold calculate_hospital_stay_duration at hp
    simp only [List.mem_map] at hp
    obtain ⟨q, hq, hfq⟩ := hp
    by_cases hc : q.2.1 > 0
    · rw [if_pos hc] at hfq
      subst hfq
      exact ⟨rfl, rfl⟩
    · rw [if_neg hc] at hfq
      subst hfq
      simp at hcount
      omega

/-! ### Follow-up metrics (`calculate_followup_metrics`, source lines
875-991) -/

/-- The four follow-up types of `followup_requirements`. -/
inductive FType where
  | f2 : FType
  | f7 : FType
  | f14 : FType
  | f28 : FType
  deriving DecidableEq, Repr

/-- The `followup_number` of each type. -/
def ftypeNumber : FType → Int
  | .f2 => 2
  | .f7 => 7
  | .f14 => 14
  | .f28 => 28

/-- The `days_from_discharge` offset of the discharge-relative types
(follow-up 28 is birth-relative and never reads this). -/
def ftypeDischargeOffset : FType → Int
  | .f2 => 3
  | .f7 => 7
  | .f14 => 14
  | .f28 => 0

/-- The discharge anchor of the follow-up calculator (source lines
907-911): only when `lastDischargeType` is truthy and not `died`, the
first truthy of `dischargeDate`, `lastDischargeDate`,
`actualDischargeDate`, through the time normalizer. -/
def followup_discharge_date (b : Baby) : Option Int :=
  match b.lastDischargeType with
  | some t =>
      if t ≠ "" ∧ pyLower t ≠ "died" then
        convert_unix_to_datetime
          (pyOrI b.dischargeDate (pyOrI b.lastDischargeDate b.actualDischargeDate))
      else none
  | none => none

/-- The due date (epoch day) of one follow-up type for one record
(source lines 931-940): birth date + 29 days for follow-up 28, discharge
anchor + 3/7/14 days for the others; `none` exactly when the record is
not eligible. -/
def followup_due_date (b : Baby) : FType → Option Int
  | .f28 =>
      (convert_unix_to_datetime b.dateOfBirth).map
        (fun bt => dateOfInstant bt + 29)
  | t =>
      (followup_discharge_date b).map
        (fun dd => dateOfInstant dd + ftypeDischargeOffset t)

/-- Eligibility: the relevant anchor date exists. -/
def followup_eligible (b : Baby) (t : FType) : Bool :=
  (followup_due_date b t).isSome

/-- Completion (source lines 946-953): some entry of the `followUp`
array carries the matching `followUpNumber`. -/
def followup_completed (b : Baby) (t : FType) : Bool :=
  b.followUp.any (fun e => e.followUpNumber == some (ftypeNumber t))

/-- Overdue (source lines 957-962): eligible, not completed, and due on
or before yesterday (`datetime.now().date() - timedelta(days=1)`,
injected here as `todayDate - 1`). -/
def followup_overdue (b : Baby) (t : FType) (todayDate : Int) : Bool :=
  followup_eligible b t && !followup_completed b t &&
    (match followup_due_date b t with
     | some due => decide (due ≤ todayDate - 1)
     | none => false)

/-- The processed-record list of `calculate_followup_metrics` (source
lines 892-901): first record per non-empty `UID`, with dead babies
skipped — without entering the `processed_uids` set, exactly as the
source's `continue` before `processed_uids.add(uid)` does. -/
def followup_processed : List Baby → List String → List Baby
  | [], _ => []
  | b :: rest, seen =>
      if b.UID = "" || seen.contains b.UID then followup_processed rest seen
      else if b.deadBaby == some true then followup_processed rest seen
      else b :: followup_processed rest (b.UID :: seen)

/-- One `hospital_stats[hospital][followup_name]` cell. -/
structure FURow where
  eligible : Nat
  completed : Nat
  overdue : Nat
  deriving DecidableEq, Repr

/-- The per-hospital, per-type counters over the processed records. -/
def followup_stats (data : List Baby) (todayDate : Int) (hosp : String)
    (t : FType) : FURow :=
  let ps := (followup_processed data []).filter
    (fun b => b.hospitalName.getD "Unknown" == hosp)
  { eligible := (ps.filter (fun b => followup_eligible b t)).length
    completed := (ps.filter (fun b =>
      followup_eligible b t && followup_completed b t)).length
    overdue := (ps.filter (fun b => followup_overdue b t todayDate)).length }

/-- First-occurrence deduplication with an explicit seen set (dict key
insertion order). -/
def dedupFirst : List String → List String → List String
  | [], _ => []
  | s :: rest, seen =>
      if seen.contains s then dedupFirst rest seen
      else s :: dedupFirst rest (s :: seen)

/-- The hospitals of `hospital_stats`, in first-contribution order. -/
def followup_hospitals (data : List Baby) : List String :=
  dedupFirst ((followup_processed data []).map
    (fun b => b.hospitalName.getD "Unknown")) []

/-- One row of `followup_summary` (source lines 965-977): only cells
with at least one eligible record are kept, with their completion
rate. -/
structure FUSummaryRow where
  hospital : String
  ftype : FType
  eligible : Nat
  completed : Nat
  completion_rate : ℚ
  overdue : Nat
  deriving DecidableEq, Repr

/-- The `followup_summary` list. -/
def followup_rows (data : List Baby) (todayDate : Int) :
    List FUSummaryRow :=
  ((followup_hospitals data).map (fun h =>
    ([FType.f2, FType.f7, FType.f14, FType.f28].filterMap (fun t =>
      let r := followup_stats data todayDate h t
      if r.eligible > 0 then
        some { hospital := h, ftype := t, eligible := r.eligible,
               completed := r.completed,
               completion_rate := (r.completed : ℚ) / (r.eligible : ℚ) * 100,
               overdue := r.overdue }
      else none)))).flatten

/-- The report of `calculate_followup_metrics`. -/
structure FUReport where
  total_eligible : Nat
  total_completed : Nat
  overall_completion_rate : ℚ
  hospital_summary : List FUSummaryRow
  unique_babies_processed : Nat
  deriving DecidableEq, Repr

/-- Embedding of `calculate_followup_metrics` (the unused `followup_data`
argument of the source is dropped; the docstring itself notes the
calculation uses the baby collections only). -/
def calculate_followup_metrics (baby_data : List Baby)
    (todayDate : Int) : FUReport :=
  let rows := followup_rows baby_data todayDate
  let te := (rows.map (·.eligible)).sum
  let tc := (rows.map (·.completed)).sum
  { total_eligible := te
    total_completed := tc
    overall_completion_rate :=
      if te > 0 then (tc : ℚ) / (te : ℚ) * 100 else 0
    hospital_summary := rows
    unique_babies_processed := (followup_processed baby_data []).length }

/-- Claim C6: follow-up 28 is eligible exactly when a birth date exists
(due birth + 29 days); types 2/7/14 exactly when the discharge anchor
exists (due anchor + 3/7/14 days); completion is the presence of a
matching `followUpNumber` entry; overdue is eligible, not completed, and
due on or before yesterday, so a future due date is neither completed nor
overdue; and dead babies contribute to no bucket (removing them changes
the processed population not at all).  The last conjunct evaluates the
per-hospital counters on a single record: each bucket counts the record
exactly under its rule. -/
theorem C6_followup_rules :
    (∀ b : Baby,
      followup_eligible b FType.f28
          = (convert_unix_to_datetime b.dateOfBirth).isSome ∧
      (∀ bt, convert_unix_to_datetime b.dateOfBirth = some bt →
        followup_due_date b FType.f28 = some (dateOfInstant bt + 29))) ∧
    (∀ b : Baby, ∀ t ∈ [FType.f2, FType.f7, FType.f14],
      followup_eligible b t = (followup_discharge_date b).isSome ∧
      (∀ dd, followup_discharge_date b = some dd →
        followup_due_date b t
          = some (dateOfInstant dd + ftypeDischargeOffset t))) ∧
    (∀ (b : Baby) (t : FType),
      followup_completed b t = true ↔
        ∃ e ∈ b.followUp, e.followUpNumber = some (ftypeNumber t)) ∧
    (∀ (b : Baby) (t : FType) (todayDate : Int),
      (followup_overdue b t todayDate = true ↔
        (followup_eligible b t = true ∧ followup_completed b t = false ∧
          ∃ due, followup_due_date b t = some due ∧ due ≤ todayDate - 1)) ∧
      (∀ due, followup_due_date b t = some due → todayDate - 1 < due →
        followup_overdue b t todayDate = false)) ∧
    (∀ (data : List Baby) (seen : List String),
      followup_processed
          (data.filter (fun b => !(b.deadBaby == some true))) seen
        = followup_processed data seen) ∧
    (∀ (b : Baby) (todayDate : Int) (t : FType), b.UID ≠ "" →
      b.deadBaby ≠ some true →
      (followup_stats [b] todayDate
          (b.hospitalName.getD "Unknown") t).eligible
        = (if followup_eligible b t then 1 else 0) ∧
      (followup_stats [b] todayDate
          (b.hospitalName.getD "Unknown") t).completed
        = (if followup_eligible b t && followup_completed b t
           then 1 else 0) ∧
      (followup_stats [b] todayDate
          (b.hospitalName.getD "Unknown") t).overdue
        = (if followup_overdue b t todayDate then 1 else 0)) := by
  refine ⟨?_, ?_, ?_, ?_, ?_, ?_⟩
  · intro b
    constructor
    · simp [followup_eligible, followup_due_date]
    · intro bt hbt
      simp [followup_due_date, hbt]
  · intro b t ht
    constructor
    · fin_cases ht <;> simp [followup_eligible, followup_due_date]
    · intro dd hdd
      fin_cases ht <;> simp [followup_due_date, hdd]
  · intro b t
    simp [followup_completed, List.any_eq_true]
  · intro b t todayDate
    constructor
    · unfold followup_overdue
      cases hdue : followup_due_date b t with
      | none =>
          simp only [Bool.and_eq_true, Bool.not_eq_true']
          constructor
          · rintro ⟨_, h⟩
            exact absurd h (by simp)
          · rintro ⟨_, _, due, hdue2, _⟩
            exact absurd hdue2 (by simp)
      | some due =>
          simp only [Bool.and_eq_true, Bool.not_eq_true',
            decide_eq_true_eq]
          constructor
          · rintro ⟨⟨he, hc⟩, hle⟩
            exact ⟨he, hc, due, rfl, hle⟩
          · rintro ⟨he, hc, due2, hdue2, hle⟩
            simp only [Option.some.injEq] at hdue2
            subst hdue2
            exact ⟨⟨he, hc⟩, hle⟩
    · intro due hdue hlt
      unfold followup_overdue
      rw [hdue]
      simp only [Bool.and_eq_false_iff]
      right
      simpa using not_le.mpr hlt
  · intro data seen
    induction data generalizing seen with
    | nil => rfl
    | cons b rest ih =>
        by_cases hdead : (b.deadBaby == some true) = true
        · simp only [List.filter_cons, hdead, Bool.not_true,
            Bool.false_eq_true, if_false, followup_processed, ih]
          split <;> simp [hdead]
        · have hd' : (b.deadBaby == some true) = false := by
            simpa using hdead
          simp [List.filter_cons, hd', followup_processed, ih]
  · intro b todayDate t hUID hdead
    have hproc : followup_processed [b] [] = [b] := by
      unfold followup_processed
      have h1 : (decide (b.UID = "") || List.contains [] b.UID) = false := by
        simp [hUID]
      rw [h1]
      simp only [Bool.false_eq_true, if_neg, not_false_eq_true]
      have h2 : (b.deadBaby == some true) = false := by
        simpa using hdead
      rw [h2]
      simp only [Bool.false_eq_true, if_neg, not_false_eq_true]
      rfl
    have hps : (followup_processed [b] []).filter
        (fun x => x.hospitalName.getD "Unknown"
          == b.hospitalName.getD "Unknown") = [b] := by
      rw [hproc]
      simp
    refine ⟨?_, ?_, ?_⟩
    · show ((followup_processed [b] []).filter _ |>.filter _).length = _
      rw [hps]
      cases h : followup_eligible b t <;> simp [h]
    · show ((followup_processed [b] []).filter _ |>.filter _).length = _
      rw [hps]
      cases h : (followup_eligible b t && followup_completed b t) <;>
        simp [h]
    · show ((followup_processed [b] []).filter _ |>.filter _).length = _
      rw [hps]
      cases h : followup_overdue b t todayDate <;> simp [h]

/-! ### Therapy-session verification classifier
(`calculate_kmc_verification_monitoring`, source lines 517-590; the
per-entry status logic is lines 542-570) -/

/-- The per-entry verification status of
`calculate_kmc_verification_monitoring`: a non-blank `mnecomment` wins;
then the boolean `filledCorrectly`; then the boolean
`kmcfilledcorrectly`; then its non-empty string form compared
case-insensitively (`correct`/`true`, `incorrect`/`false`, substring
`unable`); default `not_verified`. -/
def verification_status (o : ObsDay) : String :=
  if o.mnecomment ≠ "" ∧ pyStrip o.mnecomment ≠ "" then "incorrect"
  else
    match o.filledCorrectly with
    | .pbool true => "correct"
    | .pbool false => "incorrect"
    | _ =>
        match o.kmcfilledcorrectly with
        | .pbool true => "correct"
        | .pbool false => "incorrect"
        | .pstr s =>
            if s ≠ "" then
              let l := pyLower s
              if l = "correct" ∨ l = "true" then "correct"
              else if l = "incorrect" ∨ l = "false" then "incorrect"
              else if containsS l "unable" then "unable_to_verify"
              else "not_verified"
            else "not_verified"
        | .pnone => "not_verified"

/-- The claim's priority rules written as data: an ordered list of
predicate/label pairs, first match wins. -/
def vRules : List ((ObsDay → Bool) × String) :=
  [ (fun o => pyStrip o.mnecomment != "", "incorrect"),
    (fun o => o.filledCorrectly == PyVal.pbool true, "correct"),
    (fun o => o.filledCorrectly == PyVal.pbool false, "incorrect"),
    (fun o => o.kmcfilledcorrectly == PyVal.pbool true, "correct"),
    (fun o => o.kmcfilledcorrectly == PyVal.pbool false, "incorrect"),
    (fun o =>
      match o.kmcfilledcorrectly with
      | .pstr s => s != "" &&
          (pyLower s == "correct" || pyLower s == "true")
      | _ => false, "correct"),
    (fun o =>
      match o.kmcfilledcorrectly with
      | .pstr s => s != "" &&
          (pyLower s == "incorrect" || pyLower s == "false")
      | _ => false, "incorrect"),
    (fun o =>
      match o.kmcfilledcorrectly with
      | .pstr s => s != "" && containsS (pyLower s) "unable"
      | _ => false, "unable_to_verify") ]

/-- First-match-wins evaluation of a rule list. -/
def firstLabel : List ((ObsDay → Bool) × String) → String → ObsDay → String
  | [], dflt, _ => dflt
  | r :: rest, dflt, o => if r.1 o then r.2 else firstLabel rest dflt o

/-- A first-match evaluation returns the default or some rule's label. -/
theorem firstLabel_mem :
    ∀ (rules : List ((ObsDay → Bool) × String)) (dflt : String) (o : ObsDay),
      firstLabel rules dflt o = dflt ∨
        ∃ r ∈ rules, firstLabel rules dflt o = r.2 := by
  intro rules
  induction rules with
  | nil => intro dflt o; left; rfl
  | cons r rest ih =>
      intro dflt o
      unfold firstLabel
      by_cases h : r.1 o = true
      · rw [if_pos h]
        right
        exact ⟨r, by simp, rfl⟩
      · rw [if_neg h]
        rcases ih dflt o with h' | ⟨r', hr', h'⟩
        · left; exact h'
        · right; exact ⟨r', by simp [hr'], h'⟩

/-- Claim C7: the per-entry verification classifier equals first-match
evaluation of the claim's priority-ordered rule list (non-blank comment;
primary boolean; secondary boolean; non-empty secondary string compared
for `correct`/`true`, `incorrect`/`false`, substring `unable`), with
default `not_verified` — and it always produces exactly one of the four
canonical labels. -/
theorem C7_verification_priority :
    ∀ o : ObsDay,
      verification_status o = firstLabel vRules "not_verified" o ∧
      (verification_status o = "correct" ∨
       verification_status o = "incorrect" ∨
       verification_status o = "unable_to_verify" ∨
       verification_status o = "not_verified") := by
  intro o
  have heq : verification_status o = firstLabel vRules "not_verified" o := by
    simp only [firstLabel, vRules]
    by_cases h1 : pyStrip o.mnecomment = ""
    · have hA : ¬(o.mnecomment ≠ "" ∧ pyStrip o.mnecomment ≠ "") :=
        fun h => h.2 h1
      have hb : (pyStrip o.mnecomment != "") = false := by simp [h1]
      rw [verification_status.eq_def, if_neg hA, hb, if_neg (by simp)]
      cases hfc : o.filledCorrectly with
      | pbool bv =>
          cases bv <;> simp [hfc]
      | pnone =>
          simp only [hfc]
          cases hkc : o.kmcfilledcorrectly with
          | pbool bv => cases bv <;> simp [hkc]
          | pnone => simp [hkc]
          | pstr s =>
              simp only [hkc]
              by_cases hs : s = ""
              · simp [hs]
              · by_cases hc1 : pyLower s = "correct" ∨ pyLower s = "true"
                · simp [hs, hc1]
                · by_cases hc2 : pyLower s = "incorrect" ∨ pyLower s = "false"
                  · simp [hs, hc1, hc2]
                  · by_cases hc3 : containsS (pyLower s) "unable" = true
                    · simp [hs, hc1, hc2, hc3]
                    · simp [hs, hc1, hc2, hc3]
      | pstr t =>
          simp only [hfc]
          cases hkc : o.kmcfilledcorrectly with
          | pbool bv => cases bv <;> simp [hkc]
          | pnone => simp [hkc]
          | pstr s =>
              simp only [hkc]
              by_cases hs : s = ""
              · simp [hs]
              · by_cases hc1 : pyLower s = "correct" ∨ pyLower s = "true"
                · simp [hs, hc1]
                · by_cases hc2 : pyLower s = "incorrect" ∨ pyLower s = "false"
                  · simp [hs, hc1, hc2]
                  · by_cases hc3 : containsS (pyLower s) "unable" = true
                    · simp [hs, hc1, hc2, hc3]
                    · simp [hs, hc1, hc2, hc3]
    · have hA : o.mnecomment ≠ "" ∧ pyStrip o.mnecomment ≠ "" := by
        refine ⟨?_, h1⟩
        intro h
        rw [h] at h1
        exact h1 rfl
      have hb : (pyStrip o.mnecomment != "") = true := by simp [h1]
      rw [verification_status.eq_def, if_pos hA, hb, if_pos rfl]
  refine ⟨heq, ?_⟩
  rcases firstLabel_mem vRules "not_verified" o with h | ⟨r, hr, h⟩
  · right; right; right; rw [heq, h]
  · rw [heq, h]
    fin_cases hr <;> simp

/-! ### KMC stability (`check_kmc_stability`, source lines 1378-1406) -/

/-- The script-specific danger-sign phrase denoting "unstable for KMC". -/
def unstableDangerPhrase : String := "केएमसी के लिए अस्थिर 🦘🚫"

/-- The loop accumulator of `check_kmc_stability`. -/
structure StabAcc where
  has_kmc_hours : Bool
  is_unstable : Bool
  total_kmc_time : Int
  deriving DecidableEq, Repr

/-- One iteration of the stability loop: positive minutes accumulate;
the explicit `unstableForKMC == True` flag or the danger-sign phrase set
the instability flag. -/
def stabStep (acc : StabAcc) (o : ObsDay) : StabAcc :=
  let acc1 :=
    if o.totalKMCtimeDay > 0 then
      { acc with
        has_kmc_hours := true
        total_kmc_time := acc.total_kmc_time + o.totalKMCtimeDay }
    else acc
  let acc2 :=
    if o.unstableForKMC == some true then { acc1 with is_unstable := true }
    else acc1
  if containsS o.dangerSign unstableDangerPhrase then
    { acc2 with is_unstable := true }
  else acc2

/-- Embedding of `check_kmc_stability`: `unstable` iff the instability
flag was ever set or the accumulated (positive-entries) total is exactly
zero. -/
def check_kmc_stability (b : Baby) : String :=
  let st := b.observationDay.foldl stabStep ⟨false, false, 0⟩
  if st.is_unstable || st.total_kmc_time == 0 then "unstable" else "stable"

/-- The accumulated total after one step. -/
theorem stabStep_total (acc : StabAcc) (o : ObsDay) :
    (stabStep acc o).total_kmc_time
      = if o.totalKMCtimeDay > 0 then
          acc.total_kmc_time + o.totalKMCtimeDay
        else acc.total_kmc_time := by
  unfold stabStep
  by_cases hp : o.totalKMCtimeDay > 0 <;>
    by_cases hu : (o.unstableForKMC == some true) = true <;>
    by_cases hd : containsS o.dangerSign unstableDangerPhrase = true <;>
    simp [hp, hu, hd]

/-- The instability flag after one step. -/
theorem stabStep_unstable (acc : StabAcc) (o : ObsDay) :
    (stabStep acc o).is_unstable
      = (acc.is_unstable || (o.unstableForKMC == some true)
          || containsS o.dangerSign unstableDangerPhrase) := by
  unfold stabStep
  by_cases hp : o.totalKMCtimeDay > 0 <;>
    by_cases hu : (o.unstableForKMC == some true) = true <;>
    by_cases hd : containsS o.dangerSign unstableDangerPhrase = true <;>
    simp [hp, hu, hd]

/-- The instability flag over the whole loop. -/
theorem stab_fold_unstable :
    ∀ (l : List ObsDay) (acc : StabAcc),
      (l.foldl stabStep acc).is_unstable
        = (acc.is_unstable || l.any (fun o =>
            (o.unstableForKMC == some true)
              || containsS o.dangerSign unstableDangerPhrase)) := by
  intro l
  induction l with
  | nil => intro acc; simp
  | cons o rest ih =>
      intro acc
      simp [List.foldl_cons, ih, stabStep_unstable, Bool.or_assoc]

/-- The accumulated total never decreases. -/
theorem stab_fold_total_mono :
    ∀ (l : List ObsDay) (acc : StabAcc),
      acc.total_kmc_time ≤ (l.foldl stabStep acc).total_kmc_time := by
  intro l
  induction l with
  | nil => intro acc; exact le_refl _
  | cons o rest ih =>
      intro acc
      rw [List.foldl_cons]
      refine le_trans ?_ (ih _)
      rw [stabStep_total]
      by_cases hp : o.totalKMCtimeDay > 0
      · rw [if_pos hp]; omega
      · rw [if_neg hp]

/-- Over a non-negative start, the accumulated total is zero exactly
when it started zero and no entry has positive minutes. -/
theorem stab_fold_total_zero :
    ∀ (l : List ObsDay) (acc : StabAcc), 0 ≤ acc.total_kmc_time →
      ((l.foldl stabStep acc).total_kmc_time = 0 ↔
        (acc.total_kmc_time = 0 ∧ ¬∃ o ∈ l, 0 < o.totalKMCtimeDay)) := by
  intro l
  induction l with
  | nil => intro acc h; simp
  | cons o rest ih =>
      intro acc hacc
      rw [List.foldl_cons]
      by_cases hp : o.totalKMCtimeDay > 0
      · have h1 : (stabStep acc o).total_kmc_time
            = acc.total_kmc_time + o.totalKMCtimeDay := by
          rw [stabStep_total, if_pos hp]
        have h2 : 0 < (stabStep acc o).total_kmc_time := by
          rw [h1]; omega
        constructor
        · intro hz
          have hmono := stab_fold_total_mono rest (stabStep acc o)
          exact absurd rfl (by omega : ¬(0 : Int) = 0)
        · rintro ⟨_, hno⟩
          exact absurd ⟨o, by simp, hp⟩ hno
      · have h1 : (stabStep acc o).total_kmc_time = acc.total_kmc_time := by
          rw [stabStep_total, if_neg hp]
        rw [ih _ (by rw [h1]; exact hacc), h1]
        constructor
        · rintro ⟨hz, hno⟩
          refine ⟨hz, ?_⟩
          rintro ⟨o', ho', hp'⟩
          rcases List.mem_cons.mp ho' with rfl | ho''
          · exact hp hp'
          · exact hno ⟨o', ho'', hp'⟩
        · rintro ⟨hz, hno⟩
          refine ⟨hz, ?_⟩
          rintro ⟨o', ho', hp'⟩
          exact hno ⟨o', List.mem_cons_of_mem _ ho', hp'⟩

/-- Claim C8: the stability classifier answers `unstable` exactly when
some observation entry carries the explicit instability flag or the
script-specific danger-sign phrase, or no entry has positive therapy
minutes (the accumulated total — which only sums positive entries — is
exactly zero); in particular all-zero-minutes records with no indicator
are `unstable`, and the classifier only ever answers `unstable` or
`stable`. -/
theorem C8_stability_rule :
    ∀ b : Baby,
      (check_kmc_stability b = "unstable" ↔
        ((∃ o ∈ b.observationDay, o.unstableForKMC = some true ∨
            containsS o.dangerSign unstableDangerPhrase = true) ∨
          ¬∃ o ∈ b.observationDay, 0 < o.totalKMCtimeDay)) ∧
      ((∀ o ∈ b.observationDay, o.totalKMCtimeDay = 0) →
        check_kmc_stability b = "unstable") ∧
      (check_kmc_stability b = "unstable" ∨
        check_kmc_stability b = "stable") := by
  intro b
  have hcond : check_kmc_stability b = "unstable" ↔
      (((b.observationDay.foldl stabStep ⟨false, false, 0⟩).is_unstable ||
        ((b.observationDay.foldl stabStep
          ⟨false, false, 0⟩).total_kmc_time == 0)) = true) := by
    unfold check_kmc_stability
    by_cases h : ((b.observationDay.foldl stabStep
        ⟨false, false, 0⟩).is_unstable ||
        ((b.observationDay.foldl stabStep
          ⟨false, false, 0⟩).total_kmc_time == 0)) = true
    · rw [if_pos h]
      simp [h]
    · rw [if_neg h]
      constructor
      · intro hs
        exact absurd hs (by decide)
      · intro hh
        exact absurd hh h
  have hiff : check_kmc_stability b = "unstable" ↔
      ((∃ o ∈ b.observationDay, o.unstableForKMC = some true ∨
          containsS o.dangerSign unstableDangerPhrase = true) ∨
        ¬∃ o ∈ b.observationDay, 0 < o.totalKMCtimeDay) := by
    rw [hcond, Bool.or_eq_true, stab_fold_unstable]
    have hz := stab_fold_total_zero b.observationDay ⟨false, false, 0⟩
      (by exact le_refl 0)
    constructor
    · rintro (hu | ht)
      · left
        simp only [Bool.false_or, List.any_eq_true, Bool.or_eq_true,
          beq_iff_eq] at hu
        obtain ⟨o, ho, h⟩ := hu
        exact ⟨o, ho, h⟩
      · right
        have := (hz.mp (by simpa using ht)).2
        exact this
    · rintro (⟨o, ho, h⟩ | hno)
      · left
        simp only [Bool.false_or, List.any_eq_true, Bool.or_eq_true,
          beq_iff_eq]
        exact ⟨o, ho, h⟩
      · right
        have := hz.mpr ⟨rfl, hno⟩
        simpa using this
  refine ⟨hiff, ?_, ?_⟩
  · intro hall
    rw [hiff]
    right
    rintro ⟨o, ho, hp⟩
    rw [hall o ho] at hp
    exact absurd hp (by omega)
  · simp only [check_kmc_stability]
    by_cases h : ((b.observationDay.foldl stabStep
        ⟨false, false, 0⟩).is_unstable ||
        ((b.observationDay.foldl stabStep
          ⟨false, false, 0⟩).total_kmc_time == 0)) = true
    · left
      rw [if_pos h]
    · right
      rw [if_neg h]

/-! ### Test-hospital filter (`load_firebase_data`, source lines 246-252) -/

/-- The baby-population filter at the end of `load_firebase_data` (the
rest of that function is I/O plumbing): keep a record only when its
lowercased `hospitalName` is truthy and contains none of the
out-of-program markers `test`, `training`, `demo`. -/
def filter_test_hospitals (baby_data : List Baby) : List Baby :=
  baby_data.filter (fun b =>
    let hospital_name := pyLower (b.hospitalName.getD "")
    hospital_name != "" &&
      !(containsS hospital_name "test" ||
        containsS hospital_name "training" ||
        containsS hospital_name "demo"))

/-- Membership in the filtered population, spelled out. -/
theorem mem_filter_test_hospitals (baby_data : List Baby) (b : Baby) :
    b ∈ filter_test_hospitals baby_data ↔
      b ∈ baby_data ∧
        (pyLower (b.hospitalName.getD "") ≠ "" ∧
         containsS (pyLower (b.hospitalName.getD "")) "test" = false ∧
         containsS (pyLower (b.hospitalName.getD "")) "training" = false ∧
         containsS (pyLower (b.hospitalName.getD "")) "demo" = false) := by
  unfold filter_test_hospitals
  rw [List.mem_filter]
  simp only [Bool.and_eq_true, bne_iff_ne, ne_eq, Bool.not_eq_true',
    Bool.or_eq_false_iff]
  tauto

/-- Claim C10: a record whose `hospitalName` is absent or empty is
excluded from the filtered baby population (the filter is not limited to
the marker substrings); membership requires a non-empty lowercased name
free of `test`, `training` and `demo`. -/
theorem C10_empty_hospital_name_excluded :
    (∀ (baby_data : List Baby) (b : Baby),
        b.hospitalName = none ∨ b.hospitalName = some "" →
        b ∉ filter_test_hospitals baby_data) ∧
    (∀ (baby_data : List Baby) (b : Baby),
        b ∈ filter_test_hospitals baby_data ↔
          b ∈ baby_data ∧
            (pyLower (b.hospitalName.getD "") ≠ "" ∧
             containsS (pyLower (b.hospitalName.getD "")) "test" = false ∧
             containsS (pyLower (b.hospitalName.getD ""))
               "training" = false ∧
             containsS (pyLower (b.hospitalName.getD "")) "demo"
               = false)) := by
  refine ⟨?_, mem_filter_test_hospitals⟩
  intro baby_data b hb hmem
  have h := ((mem_filter_test_hospitals baby_data b).mp hmem).2.1
  have hname : b.hospitalName.getD "" = "" := by
    rcases hb with hb | hb <;> rw [hb] <;> rfl
  rw [hname] at h
  exact h rfl

/-! ### Claim C9: zero-denominator safety and empty input -/

/-- Claim C9: in every embedded calculator, every percentage field is 0
whenever its denominator is 0, and the empty record set produces the
documented all-zero report (totality — "never raises" — is intrinsic:
each embedding is a total function). -/
theorem C9_zero_denominator_safety :
    (∀ data : List Baby,
      (calculate_registration_timeliness data).total_inborn = 0 →
      (calculate_registration_timeliness data).within_24h_percentage
          = 0 ∧
      (calculate_registration_timeliness data).within_12h_percentage
          = 0) ∧
    (∀ data : List Baby,
      (calculate_kmc_initiation_metrics data).total_babies_with_kmc
          = 0 →
      (calculate_kmc_initiation_metrics data).within_24h_percentage = 0 ∧
      (calculate_kmc_initiation_metrics data).within_48h_percentage = 0 ∧
      (calculate_kmc_initiation_metrics
          data).avg_time_to_initiation_hours = 0) ∧
    (∀ (bd : List Baby) (dd : List DischargeRecord),
      (calculate_discharge_outcomes bd dd).total_discharged = 0 →
      (calculate_discharge_outcomes bd dd).critical_home_percentage
          = 0 ∧
      (calculate_discharge_outcomes bd dd).stable_home_percentage = 0 ∧
      (calculate_discharge_outcomes bd dd).critical_referred_percentage
          = 0 ∧
      (calculate_discharge_outcomes bd dd).died_percentage = 0) ∧
    (∀ (bd : List Baby) (dd : List DischargeRecord),
      (calculate_death_rates bd dd).total_babies = 0 →
      (calculate_death_rates bd dd).mortality_rate = 0) ∧
    (∀ (data : List Baby) (todayDate : Int),
      (calculate_followup_metrics data todayDate).total_eligible = 0 →
      (calculate_followup_metrics data todayDate).overall_completion_rate
          = 0) ∧
    calculate_registration_timeliness [] =
      { total_inborn := 0, within_24h_count := 0,
        within_24h_percentage := 0, within_12h_count := 0,
        within_12h_percentage := 0 } ∧
    calculate_kmc_initiation_metrics [] =
      { total_babies_with_kmc := 0, avg_time_to_initiation_hours := 0,
        within_24h_count := 0, within_24h_percentage := 0,
        within_48h_count := 0, within_48h_percentage := 0,
        initiation_data := [], inborn_stats := none,
        outborn_stats := none, inborn_location_stats := [] } ∧
    calculate_death_rates [] [] =
      { total_babies := 0, dead_babies := 0, mortality_rate := 0 } ∧
    (∀ todayDate : Int,
      calculate_followup_metrics [] todayDate =
        { total_eligible := 0, total_completed := 0,
          overall_completion_rate := 0, hospital_summary := [],
          unique_babies_processed := 0 }) ∧
    (∀ startDate endDate : Int,
      calculate_average_kmc_by_location [] startDate endDate = []) ∧
    (∀ (targetDate : Int) (hosp loc : String),
      daily_cell [] targetDate hosp loc =
        { total_kmc_minutes := 0, baby_count := 0,
          average_kmc_hours := 0 }) ∧
    calculate_hospital_stay_duration [] =
      { location_stats := [], total_babies := 0 } ∧
    calculate_individual_critical_reasons [] =
      { individual_reasons := [], total_babies_with_reasons := 0,
        total_unique_reasons := 0 } ∧
    calculate_discharge_outcomes [] [] =
      { total_discharged := 0, critical_home_count := 0,
        stable_home_count := 0, critical_referred_count := 0,
        died_count := 0, other_count := 0,
        critical_home_percentage := 0, stable_home_percentage := 0,
        critical_referred_percentage := 0, died_percentage := 0,
        unique_babies_processed := 0 } := by
  refine ⟨?_, ?_, ?_, ?_, ?_, rfl, rfl, rfl, fun _ => rfl,
    fun _ _ => rfl, fun _ _ _ => rfl, rfl, rfl, rfl⟩
  · intro data h
    simp only [calculate_registration_timeliness] at h ⊢
    rw [h]
    norm_num
  · intro data h
    simp only [calculate_kmc_initiation_metrics] at h ⊢
    by_cases he : (data.filterMap initEntryOf).isEmpty
    · simp [he]
    · simp only [he, Bool.false_eq_true, if_false] at h ⊢
      exact absurd (List.isEmpty_iff.mpr (List.length_eq_zero.mp h))
        (by simpa using he)
  · intro bd dd h
    simp only [calculate_discharge_outcomes] at h ⊢
    rw [h]
    norm_num
  · intro bd dd h
    simp only [calculate_death_rates] at h ⊢
    rw [h]
    norm_num
  · intro data todayDate h
    simp only [calculate_followup_metrics] at h ⊢
    rw [h]
    norm_num
